import Mathlib

/-!
Verification of the sankash import & categorization pipeline.

This file gives a shallow embedding of the core of the sankash repository
(`sankash/services/rule_service.py`, `sankash/services/import_service.py`,
`sankash/utils/duplicate_detection.py`, `sankash/converters/bank_converters.py`)
and proves or refutes the specification claims about it.

Modelling conventions:
* Python `float` values are modelled by `PyFloat`: an exact rational for
  finite values plus the special values `inf`, `-inf`, `nan`.  Decimal
  literals are modelled exactly as rationals; the ordering of two parsed
  decimals agrees with IEEE double ordering whenever the two values are not
  rounded to the same double, which holds for all concrete values used here.
* Transaction amounts are modelled as rationals (finite floats).
* Fallible Python operations (`float(..)`, `int(..)`) are `Option`-valued;
  `try/except` becomes a pattern match; an uncaught exception surfaces as a
  `PyErr` value in an error component.
* The DuckDB-backed stores are modelled as lists; SQL `UPDATE` statements
  become explicit `StoreCmd` values (the observable side effects of the rule
  engine), and `INSERT` becomes list append.
-/

namespace Sankash

/-! ### Models of Python string / number primitives -/

/-- Model of Python `str.lower()` restricted to ASCII (viewed as a character
list).  All field values and rule values in the claims are ASCII. -/
def py_lower (s : String) : List Char :=
  s.toList.map Char.toLower

/-- Containment test on character lists: `is_substr_list n h` holds iff the
list `n` occurs contiguously inside `h`.  Models Python `n in h` on strings. -/
def is_substr_list (needle : List Char) : List Char → Bool
  | [] => needle.isEmpty
  | c :: rest => needle.isPrefixOf (c :: rest) || is_substr_list needle rest

/-- Model of a Python `float` value: an exact rational for finite values, or
one of the IEEE special values. -/
inductive PyFloat where
  | finite (q : ℚ)
  | posInf
  | negInf
  | nan
deriving DecidableEq, Repr

/-- Comparison `a < b` on Python floats.  `nan` compares false against
everything; infinities behave as extreme elements. -/
def PyFloat.ltb : PyFloat → PyFloat → Bool
  | .finite a, .finite b => decide (a < b)
  | .finite _, .posInf => true
  | .negInf, .finite _ => true
  | .negInf, .posInf => true
  | _, _ => false

/-- ASCII whitespace stripped by Python's `float()` / `int()` conversions. -/
def is_py_space (c : Char) : Bool :=
  c = ' ' || c = '\t' || c = '\n' || c = '\r' || c = '\x0b' || c = '\x0c'

/-- Digit-group well-formedness after its first character: digits with single
underscores allowed only between digits (Python numeric literal rule). -/
def digits_tail : List Char → Bool
  | [] => true
  | '_' :: c :: rest => c.isDigit && digits_tail rest
  | '_' :: [] => false
  | c :: rest => c.isDigit && digits_tail rest

/-- A valid digit group: nonempty, starts with a digit, single underscores
only between digits. -/
def valid_group : List Char → Bool
  | [] => false
  | c :: rest => c.isDigit && digits_tail rest

/-- Numeric value of a digit group, skipping underscores. -/
def group_val (ds : List Char) : Nat :=
  ds.foldl (fun a c => if c = '_' then a else a * 10 + (c.toNat - 48)) 0

/-- Split off the longest leading run of digits/underscores. -/
def span_digits (cs : List Char) : List Char × List Char :=
  (cs.takeWhile (fun c => c.isDigit || c = '_'), cs.dropWhile (fun c => c.isDigit || c = '_'))

/-- Parse an optional exponent part (must consume the whole remainder).
Returns the signed exponent as `(negative?, magnitude)`. -/
def parse_exp : List Char → Option (Bool × Nat)
  | [] => some (false, 0)
  | c :: rest =>
    if c = 'e' || c = 'E' then
      let (sgn, rest2) := match rest with
        | '+' :: r => (false, r)
        | '-' :: r => (true, r)
        | r => (false, r)
      let (ds, rest3) := span_digits rest2
      if valid_group ds && rest3.isEmpty then some (sgn, group_val ds) else none
    else none

/-- Parse the numeric body of a float literal (after sign stripping):
`digits [. digits] [exp]` or `. digits [exp]`, exactly consuming the input.
The value `(intpart.fracpart) × 10^exp` is assembled as one exact rational
`mkRat` of an integer numerator and a power-of-ten denominator. -/
def parse_number (cs : List Char) : Option ℚ :=
  let (ip, rest1) := span_digits cs
  if ip ≠ [] && !valid_group ip then none
  else
    match rest1 with
    | '.' :: rest2 =>
      let (fp, rest3) := span_digits rest2
      if ip.isEmpty && fp.isEmpty then none
      else if fp ≠ [] && !valid_group fp then none
      else
        match parse_exp rest3 with
        | none => none
        | some (esgn, emag) =>
          let fl := (fp.filter (fun c => c ≠ '_')).length
          let m := group_val ip * 10 ^ fl + group_val fp
          some (if esgn then mkRat (Int.ofNat m) (10 ^ fl * 10 ^ emag)
                else mkRat (Int.ofNat (m * 10 ^ emag)) (10 ^ fl))
    | _ =>
      if ip.isEmpty then none
      else
        match parse_exp rest1 with
        | none => none
        | some (esgn, emag) =>
          let m := group_val ip
          some (if esgn then mkRat (Int.ofNat m) (10 ^ emag)
                else mkRat (Int.ofNat (m * 10 ^ emag)) 1)

/-- Model of Python `float(s)` on a string: strips ASCII whitespace, handles
an optional sign, the special spellings `inf`/`infinity`/`nan`, and decimal
literals with optional fraction and exponent.  Returns `none` where Python
raises `ValueError`. -/
def py_float (s : String) : Option PyFloat :=
  let cs := ((s.toList.dropWhile is_py_space).reverse.dropWhile is_py_space).reverse
  let (neg, body) := match cs with
    | '+' :: r => (false, r)
    | '-' :: r => (true, r)
    | r => (false, r)
  let lb := body.map Char.toLower
  if lb = "inf".toList || lb = "infinity".toList then
    some (if neg then .negInf else .posInf)
  else if lb = "nan".toList then some .nan
  else
    match parse_number body with
    | some q => some (.finite (if neg then -q else q))
    | none => none

/-- Model of Python `int(s)` on a string: whitespace, optional sign, then a
digit group; `none` where Python raises `ValueError`. -/
def py_int (s : String) : Option ℤ :=
  let cs := ((s.toList.dropWhile is_py_space).reverse.dropWhile is_py_space).reverse
  let (pos, body) := match cs with
    | '+' :: r => (true, r)
    | '-' :: r => (false, r)
    | r => (true, r)
  if valid_group body then
    some (if pos then (group_val body : ℤ) else -(group_val body : ℤ))
  else none

/-- Decimal rendering of Python `str(x)` for a finite float `x` whose value is
the rational `q`: `n.0` for integers, otherwise the exact terminating decimal
expansion.  This agrees with Python's shortest round-trip repr for every
amount whose decimal literal has few significant digits (all amounts in this
development); scientific-notation thresholds are outside the model. -/
def py_float_repr (q : ℚ) : String :=
  if q.den = 1 then
    let n := q.num
    s!"{n}.0"
  else
    match (List.range 400).find? (fun k => 10 ^ k % q.den = 0) with
    | some k =>
      let scaled := q.num.natAbs * 10 ^ k / q.den
      let ipart := scaled / 10 ^ k
      let fpart := scaled % 10 ^ k
      let fstr := toString fpart
      let fpad := String.mk (List.replicate (k - fstr.length) '0') ++ fstr
      (if q.num < 0 then "-" else "") ++ toString ipart ++ "." ++ fpad
    | none => "<nonterminating>"

/-! ### UTF-8 and MD5 (model of `data.encode()` and `hashlib.md5`) -/

/-- UTF-8 encoding of a single character as a byte list. -/
def utf8_char_bytes (c : Char) : List Nat :=
  let n := c.toNat
  if n < 128 then [n]
  else if n < 2048 then [192 ||| (n >>> 6), 128 ||| (n &&& 63)]
  else if n < 65536 then
    [224 ||| (n >>> 12), 128 ||| ((n >>> 6) &&& 63), 128 ||| (n &&& 63)]
  else
    [240 ||| (n >>> 18), 128 ||| ((n >>> 12) &&& 63),
     128 ||| ((n >>> 6) &&& 63), 128 ||| (n &&& 63)]

/-- UTF-8 encoding of a string as a byte list (model of `s.encode()`). -/
def utf8_bytes (s : String) : List Nat :=
  (s.toList.map utf8_char_bytes).flatten

/-- Addition modulo `2^32`. -/
def add32 (a b : Nat) : Nat := (a + b) % 4294967296

/-- Bitwise complement on 32-bit words. -/
def not32 (x : Nat) : Nat := 4294967295 - x

/-- Left rotation of a 32-bit word. -/
def rotl32 (x n : Nat) : Nat := ((x <<< n) ||| (x >>> (32 - n))) % 4294967296

/-- The 64 MD5 sine-derived round constants. -/
def md5K : List Nat :=
  [0xd76aa478, 0xe8c7b756, 0x242070db, 0xc1bdceee,
   0xf57c0faf, 0x4787c62a, 0xa8304613, 0xfd469501,
   0x698098d8, 0x8b44f7af, 0xffff5bb1, 0x895cd7be,
   0x6b901122, 0xfd987193, 0xa679438e, 0x49b40821,
   0xf61e2562, 0xc040b340, 0x265e5a51, 0xe9b6c7aa,
   0xd62f105d, 0x02441453, 0xd8a1e681, 0xe7d3fbc8,
   0x21e1cde6, 0xc33707d6, 0xf4d50d87, 0x455a14ed,
   0xa9e3e905, 0xfcefa3f8, 0x676f02d9, 0x8d2a4c8a,
   0xfffa3942, 0x8771f681, 0x6d9d6122, 0xfde5380c,
   0xa4beea44, 0x4bdecfa9, 0xf6bb4b60, 0xbebfbc70,
   0x289b7ec6, 0xeaa127fa, 0xd4ef3085, 0x04881d05,
   0xd9d4d039, 0xe6db99e5, 0x1fa27cf8, 0xc4ac5665,
   0xf4292244, 0x432aff97, 0xab9423a7, 0xfc93a039,
   0x655b59c3, 0x8f0ccc92, 0xffeff47d, 0x85845dd1,
   0x6fa87e4f, 0xfe2ce6e0, 0xa3014314, 0x4e0811a1,
   0xf7537e82, 0xbd3af235, 0x2ad7d2bb, 0xeb86d391]

/-- The 64 MD5 per-round left-rotation amounts. -/
def md5S : List Nat :=
  [7, 12, 17, 22, 7, 12, 17, 22, 7, 12, 17, 22, 7, 12, 17, 22,
   5, 9, 14, 20, 5, 9, 14, 20, 5, 9, 14, 20, 5, 9, 14, 20,
   4, 11, 16, 23, 4, 11, 16, 23, 4, 11, 16, 23, 4, 11, 16, 23,
   6, 10, 15, 21, 6, 10, 15, 21, 6, 10, 15, 21, 6, 10, 15, 21]

/-- One MD5 round applied to the state `(a, b, c, d)` with message words `M`. -/
def md5_step (M : List Nat) (st : Nat × Nat × Nat × Nat) (i : Nat) :
    Nat × Nat × Nat × Nat :=
  let (a, b, c, d) := st
  let f :=
    if i < 16 then (b &&& c) ||| (not32 b &&& d)
    else if i < 32 then (d &&& b) ||| (not32 d &&& c)
    else if i < 48 then b ^^^ c ^^^ d
    else c ^^^ (b ||| not32 d)
  let g :=
    if i < 16 then i
    else if i < 32 then (5 * i + 1) % 16
    else if i < 48 then (3 * i + 5) % 16
    else (7 * i) % 16
  let t := (f + a + md5K.getD i 0 + M.getD g 0) % 4294967296
  (d, add32 b (rotl32 t (md5S.getD i 0)), b, c)

/-- Little-endian 32-bit word from four bytes. -/
def le_word (b0 b1 b2 b3 : Nat) : Nat :=
  b0 + 256 * b1 + 65536 * b2 + 16777216 * b3

/-- Split a 64-byte block into its sixteen little-endian message words. -/
def md5_block_words : List Nat → List Nat
  | b0 :: b1 :: b2 :: b3 :: rest => le_word b0 b1 b2 b3 :: md5_block_words rest
  | _ => []

/-- Process one 64-byte block: run the 64 rounds, then add the input state. -/
def md5_chunk (st : Nat × Nat × Nat × Nat) (block : List Nat) :
    Nat × Nat × Nat × Nat :=
  let M := md5_block_words block
  let (a, b, c, d) := (List.range 64).foldl (md5_step M) st
  let (a0, b0, c0, d0) := st
  (add32 a0 a, add32 b0 b, add32 c0 c, add32 d0 d)

/-- Process `n` consecutive 64-byte blocks of `bytes`. -/
def md5_chunks_go : Nat → (Nat × Nat × Nat × Nat) → List Nat → Nat × Nat × Nat × Nat
  | 0, st, _ => st
  | n + 1, st, bytes => md5_chunks_go n (md5_chunk st (bytes.take 64)) (bytes.drop 64)

/-- Eight little-endian bytes of a 64-bit length value. -/
def le8 (n : Nat) : List Nat :=
  [n % 256, n / 256 % 256, n / 65536 % 256, n / 16777216 % 256,
   n / 4294967296 % 256, n / 1099511627776 % 256,
   n / 281474976710656 % 256, n / 72057594037927936 % 256]

/-- MD5 padding: append `0x80`, zero bytes to 56 mod 64, then the bit length
as eight little-endian bytes. -/
def md5_pad (msg : List Nat) : List Nat :=
  let len := msg.length
  let z := (119 - len % 64) % 64
  msg ++ [128] ++ List.replicate z 0 ++ le8 ((8 * len) % 18446744073709551616)

/-- The four 32-bit MD5 state words of a message. -/
def md5_words (msg : List Nat) : Nat × Nat × Nat × Nat :=
  let padded := md5_pad msg
  md5_chunks_go (padded.length / 64) (0x67452301, 0xefcdab89, 0x98badcfe, 0x10325476) padded

/-- Four little-endian bytes of a 32-bit word. -/
def le4 (w : Nat) : List Nat :=
  [w % 256, w / 256 % 256, w / 65536 % 256, w / 16777216 % 256]

/-- The sixteen digest bytes of MD5. -/
def md5_digest_bytes (msg : List Nat) : List Nat :=
  let (a, b, c, d) := md5_words msg
  le4 a ++ le4 b ++ le4 c ++ le4 d

/-- Lowercase hex digit. -/
def hexdig (n : Nat) : Char :=
  if n < 10 then Char.ofNat (48 + n) else Char.ofNat (87 + n)

/-- Lowercase hex rendering of a byte list, two characters per byte. -/
def hex_chars (bytes : List Nat) : List Char :=
  bytes.foldr (fun byt acc => hexdig (byt / 16) :: hexdig (byt % 16) :: acc) []

/-- Model of `hashlib.md5(msg).hexdigest()` as a character list. -/
def md5_hexdigest (msg : List Nat) : List Char :=
  hex_chars (md5_digest_bytes msg)

/-! ### Data model (sankash/core/models.py) -/

/-- Model of `RuleCondition` (models.py lines 61-66): free-text field,
operator and value, exactly as stored. -/
structure RuleCondition where
  field : String
  operator : String
  value : String
deriving DecidableEq, Repr

/-- Model of `RuleAction` (models.py lines 69-73). -/
structure RuleAction where
  action_type : String
  value : String
deriving DecidableEq, Repr

/-- Model of `Rule` (models.py lines 76-86), with the same defaults. -/
structure Rule where
  id : Option ℤ := none
  name : String
  priority : ℤ := 0
  is_active : Bool := true
  match_type : String := "any"
  conditions : List RuleCondition := []
  actions : List RuleAction := []
deriving DecidableEq, Repr

/-- Model of `Transaction` (models.py lines 44-58).  Dates are carried as
their ISO strings (the evaluator never inspects them); amounts are the exact
rationals of the decimal values (finite floats). -/
structure Transaction where
  id : Option ℤ := none
  account_id : ℤ := 1
  date : String := ""
  payee : String
  notes : Option String := none
  amount : ℚ := 0
  category : Option String := none
  is_categorized : Bool := false
  is_transfer : Bool := false
  transfer_account_id : Option ℤ := none
  imported_id : Option String := none
  import_session_id : Option ℤ := none
deriving DecidableEq, Repr

/-! ### Rule engine (sankash/services/rule_service.py) -/

/-- Field dispatch inside the evaluator closure (rule_service.py lines
50-57): `payee` compares against the payee, `amount` against the float's
string representation, `notes` against the notes with null replaced by the
empty string; any other field name makes the closure return `False` before
the operator is examined. -/
def condition_field_value (field : String) (transaction : Transaction) : Option String :=
  if field = "payee" then some transaction.payee
  else if field = "amount" then some (py_float_repr transaction.amount)
  else if field = "notes" then some (transaction.notes.getD "")
  else none

/-- Embedding of `create_condition_evaluator` (rule_service.py lines 37-76):
a higher-order function returning the per-condition evaluator closure.
`contains` and `equals` are case-insensitive; `<` and `>` parse both sides
with `float(..)` inside `try/except ValueError`, evaluating to `False` when
either side fails to parse; an unknown operator yields `False`. -/
def create_condition_evaluator (condition : RuleCondition) : Transaction → Bool :=
  fun transaction =>
    match condition_field_value condition.field transaction with
    | none => false
    | some field_value =>
      if condition.operator = "contains" then
        is_substr_list (py_lower condition.value) (py_lower field_value)
      else if condition.operator = "equals" then
        py_lower condition.value == py_lower field_value
      else if condition.operator = "<" then
        match py_float field_value, py_float condition.value with
        | some a, some b => PyFloat.ltb a b
        | _, _ => false
      else if condition.operator = ">" then
        match py_float field_value, py_float condition.value with
        | some a, some b => PyFloat.ltb b a
        | _, _ => false
      else false

/-- Embedding of `evaluate_rule` (rule_service.py lines 79-94): an empty
condition list never matches; `match_type = "any"` takes the disjunction of
the condition evaluators, any other match type (including `"all"`) the
conjunction. -/
def evaluate_rule (rule : Rule) (transaction : Transaction) : Bool :=
  if rule.conditions.isEmpty then false
  else if rule.match_type = "any" then
    rule.conditions.any (fun c => create_condition_evaluator c transaction)
  else
    rule.conditions.all (fun c => create_condition_evaluator c transaction)

/-- Python exceptions that can escape the embedded functions. -/
inductive PyErr where
  | valueError (msg : String)
  | nameError (msg : String)
deriving DecidableEq, Repr

/-- The observable side effects of the rule engine: the UPDATE statements of
`update_transaction_category` and `mark_as_transfer`
(transaction_service.py lines 108-139), keyed by transaction id. -/
inductive StoreCmd where
  | updateCategory (transaction_id : ℤ) (category : String)
  | markTransfer (transaction_id : ℤ) (transfer_account_id : ℤ)
deriving DecidableEq, Repr

/-- The transaction id a store command targets. -/
def StoreCmd.tid : StoreCmd → ℤ
  | .updateCategory t _ => t
  | .markTransfer t _ => t

/-- Loop of `apply_rule_actions` (rule_service.py lines 97-107) over the
action list: `set_category` issues a category UPDATE; `mark_transfer` calls
`int(action.value)` with no `try/except` (line 106), so an unparseable value
raises `ValueError` there — the commands already issued stay executed, the
remaining actions are abandoned, and the error propagates; an unknown action
type does nothing. -/
def apply_actions_go (transaction_id : ℤ) : List RuleAction → List StoreCmd × Option PyErr
  | [] => ([], none)
  | action :: rest =>
    if action.action_type = "set_category" then
      let (cmds, e) := apply_actions_go transaction_id rest
      (.updateCategory transaction_id action.value :: cmds, e)
    else if action.action_type = "mark_transfer" then
      match py_int action.value with
      | some acct =>
        let (cmds, e) := apply_actions_go transaction_id rest
        (.markTransfer transaction_id acct :: cmds, e)
      | none => ([], some (.valueError action.value))
    else apply_actions_go transaction_id rest

/-- Embedding of `apply_rule_actions` (rule_service.py lines 97-107). -/
def apply_rule_actions (rule : Rule) (transaction_id : ℤ) : List StoreCmd × Option PyErr :=
  apply_actions_go transaction_id rule.actions

/-- The database state visible to the rule engine and the importer: the
rules table and the transactions table as lists of rows. -/
structure DB where
  rules : List Rule := []
  transactions : List Transaction := []
deriving DecidableEq, Repr

/-- Sort key id for the `ORDER BY priority DESC, id` clause; rows loaded
from the rules table always carry an id, `none` is given key 0. -/
def rule_key_id (r : Rule) : ℤ := r.id.getD 0

/-- The SQL ordering of `get_rules` (rule_service.py line 19): priority
descending, ties broken by rule id ascending. -/
def rule_order (r1 r2 : Rule) : Prop :=
  r1.priority > r2.priority ∨ (r1.priority = r2.priority ∧ rule_key_id r1 ≤ rule_key_id r2)

instance : DecidableRel rule_order := fun r1 r2 => by
  unfold rule_order; infer_instance

instance : IsTotal Rule rule_order := by
  constructor
  intro a b
  unfold rule_order
  rcases lt_trichotomy a.priority b.priority with h | h | h
  · right; left; omega
  · rcases le_total (rule_key_id a) (rule_key_id b) with h2 | h2
    · left; right; exact ⟨h, h2⟩
    · right; right; exact ⟨h.symm, h2⟩
  · left; left; omega

instance : IsTrans Rule rule_order := by
  constructor
  intro a b c hab hbc
  unfold rule_order at *
  rcases hab with h | ⟨h1, h2⟩ <;> rcases hbc with h' | ⟨h1', h2'⟩ <;>
    first
      | (left; omega)
      | (right; constructor <;> omega)

/-- Embedding of `get_rules` with `active_only = True` (rule_service.py
lines 12-21): the active rules ordered by priority descending, id ascending
(a stable sort of the stored rows). -/
def get_rules (db : DB) : List Rule :=
  List.insertionSort rule_order (db.rules.filter (fun r => r.is_active))

/-- Embedding of the `get_transactions(db_path, is_categorized=False,
limit=100_000, offset=0)` call at rule_service.py line 127: the uncategorized
rows, capped at 100000.  The SQL presentation order (`date DESC`) is not
modelled; every property proved below is insensitive to the order of this
list. -/
def get_uncategorized (db : DB) : List Transaction :=
  (db.transactions.filter (fun t => !t.is_categorized)).take 100000

/-- Embedding of the inner `for rule in rules` loop of
`apply_rules_to_uncategorized` (rule_service.py lines 137-142): scan the
rules in order; at the first rule whose conditions match, apply its actions
(when the transaction has an id) and count the transaction, then `break`.
Returns the commands executed, the contribution to `categorized_count`, and
the uncaught error, if any. -/
def apply_to_transaction : List Rule → Transaction → List StoreCmd × Nat × Option PyErr
  | [], _ => ([], 0, none)
  | rule :: rest, transaction =>
    if evaluate_rule rule transaction then
      match transaction.id with
      | some tid =>
        match apply_rule_actions rule tid with
        | (cmds, none) => (cmds, 1, none)
        | (cmds, some e) => (cmds, 0, some e)
      | none => ([], 0, none)
    else apply_to_transaction rest transaction

/-- The outer `for transaction in transactions` loop (rule_service.py lines
136-142): transactions are processed in order; an uncaught exception from an
action aborts the whole loop, keeping the commands already executed. -/
def apply_loop (rules : List Rule) : List Transaction → List StoreCmd × Nat × Option PyErr
  | [] => ([], 0, none)
  | t :: ts =>
    match apply_to_transaction rules t with
    | (cmds, n, some e) => (cmds, n, some e)
    | (cmds, n, none) =>
      let (cmds2, n2, e2) := apply_loop rules ts
      (cmds ++ cmds2, n + n2, e2)

/-- Embedding of `apply_rules_to_uncategorized` (rule_service.py lines
110-144): fetch the active rules in priority order, fetch the uncategorized
transactions, and run the two nested loops.  The returned `Nat` is the
function's `categorized_count` return value. -/
def apply_rules_to_uncategorized (db : DB) : List StoreCmd × Nat × Option PyErr :=
  let rules := get_rules db
  if rules.isEmpty then ([], 0, none)
  else apply_loop rules (get_uncategorized db)

/-- Effect of one UPDATE command on the transactions table:
`update_transaction_category` sets `category` and `is_categorized = TRUE`,
`mark_as_transfer` sets `is_transfer = TRUE` and the transfer account id
(transaction_service.py lines 108-139), in each case on the row with the
given id. -/
def run_store_cmd (ts : List Transaction) : StoreCmd → List Transaction
  | .updateCategory tid cat =>
    ts.map (fun t => if t.id = some tid then
      { t with category := some cat, is_categorized := true } else t)
  | .markTransfer tid acct =>
    ts.map (fun t => if t.id = some tid then
      { t with is_transfer := true, transfer_account_id := some acct } else t)

/-- Run a list of store commands in order. -/
def run_store_cmds (ts : List Transaction) (cmds : List StoreCmd) : List Transaction :=
  cmds.foldl run_store_cmd ts

/-- Embedding of `test_rule` (rule_service.py lines 147-175): take all
transactions (capped at 100000), keep the first `limit` (default 100),
collect the ids of the rows with a non-null id matched by the rule, and
return the rows whose id is in that list.  Nothing is mutated. -/
def test_rule (db : DB) (rule : Rule) (limit : Nat) : List Transaction :=
  let ts := (db.transactions.take 100000).take limit
  let matching_ids := ts.filterMap (fun t =>
    match t.id with
    | some i => if evaluate_rule rule t then some i else none
    | none => none)
  ts.filter (fun t =>
    match t.id with
    | some i => matching_ids.contains i
    | none => false)

/-- Embedding of `create_rule_from_transaction` (rule_service.py lines
246-279).  The guard raises `ValueError` when the transaction's category is
`None` or empty (Python falsiness of `transaction.category`).  On the other
branch the code builds `Rule(..., actions=[RuleAction(...)])`, but the
module imports only `Rule, RuleCondition, Transaction` from
`sankash.core.models` (rule_service.py line 9): the lookup of the global
name `RuleAction` at line 272 fails, so every call with a categorized
transaction raises `NameError` and no rule is ever constructed or stored. -/
def create_rule_from_transaction (transaction : Transaction) (rule_name : String)
    (priority : ℤ) : Except PyErr Rule :=
  if (transaction.category.getD "") = "" then
    .error (.valueError "Transaction must have a category to create rule")
  else
    .error (.nameError "name RuleAction is not defined")

/-! ### Import pipeline (sankash/services/import_service.py,
sankash/utils/duplicate_detection.py, sankash/converters/bank_converters.py) -/

/-- A normalized CSV row as produced by the converters: ISO date string,
finite amount, payee, nullable notes.  The occurrence grouping key is the
whole tuple. -/
structure NRow where
  date : String
  amount : ℚ
  payee : String
  notes : Option String := none
deriving DecidableEq, Repr

/-- Embedding of `create_imported_id` (import_service.py lines 73-85):
`data = f"{date}_{amount}_{payee}_{notes}_{occurrence}"` hashed with MD5,
truncated to the first 8 hex characters, and the visible id
`f"{date}_{amount}_{hash8}"`. -/
def create_imported_id (transaction_date : String) (amount : ℚ) (payee : String)
    (notes : String) (occurrence : Nat) : String :=
  let amount_s := py_float_repr amount
  let occ_s := toString occurrence
  let data := transaction_date ++ "_" ++ amount_s ++ "_" ++ payee ++ "_" ++ notes ++ "_" ++ occ_s
  let hash_suffix := String.mk ((md5_hexdigest (utf8_bytes data)).take 8)
  transaction_date ++ "_" ++ amount_s ++ "_" ++ hash_suffix

/-- The occurrence counter of `add_imported_ids` (import_service.py lines
97-100): the polars window expression
`cum_count("date").over("date", "amount", "payee", "notes") - 1` gives each
row the number of earlier rows with the identical
(date, amount, payee, notes) tuple. -/
def occurrence_index (prev : List NRow) (row : NRow) : Nat :=
  prev.countP (fun p => p == row)

/-- Row-by-row recursion of `add_imported_ids` (import_service.py lines
88-119), carrying the already-processed prefix: each row is paired with
the imported id built from its tuple (null notes as empty string, line 109)
and its occurrence index. -/
def add_imported_ids_go (prev : List NRow) : List NRow → List (NRow × String)
  | [] => []
  | row :: rest =>
    (row, create_imported_id row.date row.amount row.payee (row.notes.getD "")
        (occurrence_index prev row))
      :: add_imported_ids_go (prev ++ [row]) rest

/-- Embedding of `add_imported_ids` (import_service.py lines 88-119). -/
def add_imported_ids (rows : List NRow) : List (NRow × String) :=
  add_imported_ids_go [] rows

/-- Embedding of `find_duplicates` (duplicate_detection.py lines 6-25): with
an empty existing table the result is empty; otherwise the candidate ids
that occur among the non-null stored imported ids. -/
def find_duplicates (import_ids : List String) (existing : List Transaction) : List String :=
  if existing.isEmpty then []
  else
    let existing_ids := existing.filterMap (fun t => t.imported_id)
    import_ids.filter (fun i => existing_ids.contains i)

/-- Embedding of `filter_duplicate_transactions` (import_service.py lines
137-153): split the candidate rows into new and duplicate by membership of
their imported id in the duplicate list. -/
def filter_duplicate_transactions (import_rows : List (NRow × String))
    (existing : List Transaction) : List (NRow × String) × List (NRow × String) :=
  let dups := find_duplicates (import_rows.map (fun p => p.2)) existing
  (import_rows.filter (fun p => !dups.contains p.2),
   import_rows.filter (fun p => dups.contains p.2))

/-- The statistics of one import run returned by `import_transactions`
(import_service.py lines 246-254). -/
structure ImportStats where
  total : Nat
  imported : Nat
  duplicates : Nat
deriving DecidableEq, Repr

/-- A candidate row promoted to a stored transaction row by the bulk INSERT
of `import_transactions` (lines 212-232): account id, the four row fields
with null notes filled by the empty string, and the imported id.  The
database-assigned row id and the import-session tag play no role in the
claims below. -/
def promote (account_id : ℤ) (p : NRow × String) : Transaction :=
  { account_id := account_id, date := p.1.date, payee := p.1.payee,
    notes := some (p.1.notes.getD ""), amount := p.1.amount,
    imported_id := some p.2 }

/-- The `DATE` order of two ISO `YYYY-MM-DD` date strings: for fixed-width
ISO dates the chronological order of the `DATE` column coincides with the
lexicographic order of their character lists. -/
def date_lt (a b : String) : Prop := a.data < b.data

instance : DecidableRel date_lt := fun a b => by
  unfold date_lt; infer_instance

/-- The row order of the existing-rows query, `ORDER BY t.date DESC`: row
`a` may precede row `b` when its date is not older.  The relation holds on
date ties, so a stable sort by it keeps the input order of equal-date rows
— which realizes the query's `t.id DESC` tie-break when the input is fed in
id-descending order. -/
def date_desc (a b : Transaction) : Prop := ¬ date_lt a.date b.date

instance : DecidableRel date_desc := fun a b => by
  unfold date_desc; infer_instance

/-- Embedding of the call `get_transactions(db_path, account_id=account_id,
limit=100_000, offset=0)` (transaction_service.py lines 12-97, called at
import_service.py line 190): `WHERE t.account_id = $account_id ORDER BY
t.date DESC, t.id DESC LIMIT 100000 OFFSET 0`.  The store list keeps rows
in insertion order and the autoincrementing primary key grows with each
insertion, so `t.id DESC` is the reverse of insertion order; the `ORDER BY`
is realized as a stable insertion sort by date descending of the reversed
row list, and `LIMIT` as `take`. -/
def get_transactions_window (store : List Transaction) (account_id : ℤ) :
    List Transaction :=
  (List.insertionSort date_desc
    (store.filter (fun t => t.account_id == account_id)).reverse).take 100000

/-- Embedding of the storage steps of `import_transactions`
(import_service.py lines 156-254) for one file of already-normalized rows:
assign imported ids, load the account's existing rows (the date-descending
100000-row window of `get_transactions_window`), split off duplicates, and
bulk-insert the new rows.  The rule-engine pass that follows (line 236)
only updates category/transfer fields of stored rows — it neither inserts
rows nor changes imported ids — and is modelled separately by
`apply_rules_to_uncategorized`. -/
def import_transactions (store : List Transaction) (account_id : ℤ)
    (rows : List NRow) : List Transaction × ImportStats :=
  let import_rows := add_imported_ids rows
  let existing := get_transactions_window store account_id
  let (new_rows, dup_rows) := filter_duplicate_transactions import_rows existing
  (store ++ new_rows.map (promote account_id),
   ⟨import_rows.length, new_rows.length, dup_rows.length⟩)

/-- Tags for the two bank-specific converter functions of
`bank_converters.py`. -/
inductive ConverterTag where
  | deutsche_bank
  | ing
deriving DecidableEq, Repr

/-- Embedding of `get_converter` (bank_converters.py lines 183-199).
`BankFormat` is a `str`-valued enum, so the converter dictionary is keyed by
the format's string value, and `converters.get(bank_format)` returns `None`
both for the explicit `BankFormat.STANDARD: None` entry and for any value
that is not a key at all — the two cases are indistinguishable to the
caller. -/
def get_converter (bank_format : String) : Option ConverterTag :=
  if bank_format = "deutsche-bank" then some .deutsche_bank
  else if bank_format = "ing" then some .ing
  else none

/-- Which CSV parser the import pipeline runs (import_service.py lines
180-187): the bank-specific converter when `get_converter` returns one,
otherwise `parse_csv_to_dataframe`, the standard-format parser. -/
inductive ParserChoice where
  | bank (tag : ConverterTag)
  | standard
deriving DecidableEq, Repr

/-- The parser-dispatch step of `import_transactions` and `preview_import`
(import_service.py lines 183-187 and 272-309): `if converter: ... else:
parse_csv_to_dataframe(...)`. -/
def import_parse_step (bank_format : String) : ParserChoice :=
  match get_converter bank_format with
  | some tag => .bank tag
  | none => .standard

/-! ### Specification-side helper definitions -/

/-- The store commands a single action issues when it succeeds (specification
shorthand used to state which rule's actions reach the store). -/
def action_cmds (transaction_id : ℤ) (action : RuleAction) : List StoreCmd :=
  if action.action_type = "set_category" then
    [.updateCategory transaction_id action.value]
  else if action.action_type = "mark_transfer" then
    match py_int action.value with
    | some acct => [.markTransfer transaction_id acct]
    | none => []
  else []

/-- The commands of the first rule in `rules` whose conditions match `t`
(none when no rule matches): the declarative version of first-match-wins. -/
def first_rule_cmds (rules : List Rule) (t : Transaction) (tid : ℤ) : List StoreCmd :=
  match rules.find? (fun r => evaluate_rule r t) with
  | some r => (apply_rule_actions r tid).1
  | none => []

/-- Result of applying one rule's actions to one transaction inside the
batch loop: the commands, the count contribution, and the error, if any. -/
def applied_result (rule : Rule) (tid : ℤ) : List StoreCmd × Nat × Option PyErr :=
  match apply_rule_actions rule tid with
  | (cmds, none) => (cmds, 1, none)
  | (cmds, some e) => (cmds, 0, some e)

/-- Importing the same row list twice in a row into the same account. -/
def reimport (store : List Transaction) (account_id : ℤ) (rows : List NRow) :
    List Transaction × ImportStats :=
  (import_transactions (import_transactions store account_id rows).1 account_id rows)

/-! ### Concrete test fixtures -/

/-- The spec's AND/OR example rule with `match_type = "all"`:
payee contains "Aldi" and amount < -50. -/
def aldi_rule_all : Rule :=
  { id := some 1, name := "aldi", match_type := "all",
    conditions := [⟨"payee", "contains", "Aldi"⟩, ⟨"amount", "<", "-50"⟩] }

/-- The same conditions with `match_type = "any"`. -/
def aldi_rule_any : Rule :=
  { aldi_rule_all with match_type := "any" }

/-- The spec's example transaction: payee "Aldi", amount -10. -/
def aldi_tx : Transaction :=
  { id := some 3, payee := "Aldi", amount := -10 }

/-- First-match fixture transaction. -/
def db1_t7 : Transaction := { id := some 7, payee := "a" }

/-- First-match fixture: two active rules both matching `db1_t7`, rule 1 with
priority 10, rule 2 with priority 5, stored in reverse priority order. -/
def db1 : DB :=
  { rules := [{ id := some 2, name := "R2", priority := 5,
                conditions := [⟨"payee", "contains", "a"⟩],
                actions := [⟨"set_category", "Other"⟩] },
              { id := some 1, name := "R1", priority := 10,
                conditions := [⟨"payee", "contains", "a"⟩],
                actions := [⟨"set_category", "Food"⟩] }],
    transactions := [db1_t7] }

/-- Count fixture: one active rule whose only action is a transfer mark, and
one matching uncategorized transaction. -/
def db5 : DB :=
  { rules := [{ id := some 1, name := "t", priority := 0, match_type := "any",
                conditions := [⟨"payee", "contains", "a"⟩],
                actions := [⟨"mark_transfer", "5"⟩] }],
    transactions := [{ id := some 1, payee := "a" }] }

/-- Error fixture rule: a category action followed by a transfer action whose
value "abc" is not an integer literal. -/
def db6_rule : Rule :=
  { id := some 1, name := "t", priority := 0, match_type := "any",
    conditions := [⟨"payee", "contains", "a"⟩],
    actions := [⟨"set_category", "X"⟩, ⟨"mark_transfer", "abc"⟩] }

/-- First transaction of the error fixture. -/
def db6_t1 : Transaction := { id := some 1, payee := "a" }

/-- Second transaction of the error fixture; it also matches the rule. -/
def db6_t2 : Transaction := { id := some 2, payee := "a" }

/-- Error fixture: the failing rule and two matching transactions. -/
def db6 : DB := { rules := [db6_rule], transactions := [db6_t1, db6_t2] }

/-- Preview fixture rule: matches payee "a" and sets a category. -/
def db9_rule : Rule :=
  { id := some 1, name := "r", conditions := [⟨"payee", "contains", "a"⟩],
    actions := [⟨"set_category", "X"⟩] }

/-- A transaction that is already categorized and matches `db9_rule`. -/
def db9_t : Transaction :=
  { id := some 1, payee := "a", is_categorized := true, category := some "X" }

/-- Preview fixture: the rule and one matching, already-categorized row. -/
def db9 : DB := { rules := [db9_rule], transactions := [db9_t] }

/-- Preview witness fixture: two uncategorized rows with distinct ids, one
matching `db9_rule` and one not. -/
def db9w : DB :=
  { rules := [db9_rule],
    transactions := [{ id := some 1, payee := "a" }, { id := some 2, payee := "b" }] }

/-- The spec's concrete normalized row (bank A example): 2024-03-01, -20.5,
Amazon, Bestellung. -/
def c3_row : NRow :=
  { date := "2024-03-01", amount := mkRat (-41) 2, payee := "Amazon", notes := some "Bestellung" }

/-- A stored transaction of account 1, dated 2024-05-01, with imported
id "p". -/
def c4_prow : Transaction :=
  { account_id := 1, date := "2024-05-01", payee := "old", imported_id := some "p" }

/-- A store holding exactly 100000 rows for account 1, all dated 2024-05-01,
filling the `limit=100_000` window of the existing-rows query. -/
def c4_store : List Transaction := List.replicate 100000 c4_prow

/-- A one-row file to import on top of the full store, dated older than
every stored row. -/
def c4_row : NRow :=
  { date := "2024-01-01", amount := -5, payee := "Shop", notes := none }

/-- The imported id assigned to `c4_row` at occurrence 0. -/
def c4_cid : String := create_imported_id "2024-01-01" (-5 : ℚ) "Shop" "" 0

/-- The stored row created for `c4_row` by the bulk insert. -/
def c4_promoted : Transaction := promote 1 (c4_row, c4_cid)

/-- The sixteen lowercase hex digits, as rendered by `hexdig`. -/
def hex_digit_chars : List Char :=
  (List.range 16).map hexdig

/-! ### Claim C7: rule-from-example -/

/-- C7: the claim states that `create_rule_from_transaction` returns a
single-condition payee rule for a categorized transaction and fails for an
uncategorized one.  The code does raise `ValueError` without a category, but
on the success path it references the unimported name `RuleAction`
(rule_service.py line 272 versus the imports at line 9), so a categorized
transaction makes it raise `NameError` instead of returning the rule: the
code contradicts its own docstring, a genuine bug. -/
theorem C7_create_rule_from_transaction_raises :
    create_rule_from_transaction
        { id := some 1, payee := "Aldi", category := some "Groceries" } "Aldi rule" 0
      = .error (.nameError "name RuleAction is not defined") ∧
    create_rule_from_transaction { id := some 2, payee := "Rewe" } "Rewe rule" 0
      = .error (.valueError "Transaction must have a category to create rule") := by
  exact ⟨rfl, rfl⟩

/-! ### Claim C8: unknown bank format -/

/-- C8, counterexample: for the unknown bank format value "sparkasse" the
converter lookup yields `None` and the pipeline runs the standard-format
parser — exactly the silent fallback the claim says never happens; no
`UnsupportedFormatError` exists anywhere in the code. -/
theorem C8_unknown_format_falls_back_to_standard :
    get_converter "sparkasse" = none ∧
    import_parse_step "sparkasse" = ParserChoice.standard ∧
    import_parse_step "sparkasse" = import_parse_step "standard" := by
  exact ⟨rfl, rfl, rfl⟩

/-- C8, amended: for every bank format value outside the supported set,
`get_converter` returns `None` and the import pipeline silently parses the
file as the standard format (it never fails with an unsupported-format
error). -/
theorem C8_unknown_format_standard_parse (bank_format : String)
    (h1 : bank_format ≠ "deutsche-bank") (h2 : bank_format ≠ "ing") :
    get_converter bank_format = none ∧
    import_parse_step bank_format = ParserChoice.standard := by
  have hc : get_converter bank_format = none := by
    unfold get_converter
    rw [if_neg h1, if_neg h2]
  refine ⟨hc, ?_⟩
  unfold import_parse_step
  rw [hc]

/-- Witness for C8, amended, at the concrete unknown format "volksbank". -/
theorem C8_unknown_format_standard_parse_witness :
    get_converter "volksbank" = none ∧
    import_parse_step "volksbank" = ParserChoice.standard :=
  C8_unknown_format_standard_parse "volksbank" (by decide) (by decide)

/-! ### Claim C5: the returned count -/

/-- C5: the claim states the return value counts the transactions that were
categorized (i.e. got `is_categorized = true` through a `set_category`
action).  In the code the counter increments for every transaction whose
first matching rule's actions ran, whatever those actions are: on `db5`,
whose only rule carries a single `mark_transfer` action, the function
returns 1 while the resulting store holds zero categorized transactions —
contradicting both the claim and the function's own docstring. -/
theorem C5_transfer_only_rule_inflates_count :
    apply_rules_to_uncategorized db5 = ([StoreCmd.markTransfer 1 5], 1, none) ∧
    (run_store_cmds db5.transactions
        (apply_rules_to_uncategorized db5).1).countP (fun t => t.is_categorized) = 0 := by
  exact ⟨rfl, rfl⟩

/-! ### Claim C9, counterexample -/

/-- C9, counterexample: on the same inputs — the single rule `db9_rule` and
the one-transaction pool of `db9` — `test_rule` returns the matching
transaction, but because that transaction is already categorized,
`apply_rules_to_uncategorized` issues no commands and categorizes nothing:
the two sets differ, refuting the claimed round-trip equality. -/
theorem C9_preview_and_apply_differ :
    test_rule db9 db9_rule 100 = [db9_t] ∧
    apply_rules_to_uncategorized db9 = ([], 0, none) := by
  exact ⟨rfl, rfl⟩

/-! ### Claim C2: AND/OR rule semantics -/

/-- C2: `evaluate_rule` returns true iff the condition list is non-empty and
— for `match_type = "all"` — every condition evaluator accepts the
transaction, or — for `match_type = "any"` — at least one does; an empty
condition list never matches. -/
theorem C2_evaluate_rule_match_semantics (rule : Rule) (transaction : Transaction) :
    (rule.conditions = [] → evaluate_rule rule transaction = false) ∧
    (rule.match_type = "all" →
      (evaluate_rule rule transaction = true ↔
        rule.conditions ≠ [] ∧
          ∀ c ∈ rule.conditions, create_condition_evaluator c transaction = true)) ∧
    (rule.match_type = "any" →
      (evaluate_rule rule transaction = true ↔
        rule.conditions ≠ [] ∧
          ∃ c ∈ rule.conditions, create_condition_evaluator c transaction = true)) := by
  refine ⟨fun h => ?_, fun h => ?_, fun h => ?_⟩
  · simp [evaluate_rule, h]
  · rcases hc : rule.conditions with _ | ⟨c0, cs⟩
    · simp [evaluate_rule, hc]
    · simp [evaluate_rule, hc, h, List.all_eq_true]
  · rcases hc : rule.conditions with _ | ⟨c0, cs⟩
    · simp [evaluate_rule, hc]
    · simp [evaluate_rule, hc, h, List.any_eq_true]

/-- Witness for C2 at the spec's concrete example: the rule (payee contains
"Aldi", amount below -50) does not match the Aldi transaction with amount
-10 under "all" but matches it under "any". -/
theorem C2_evaluate_rule_match_semantics_witness :
    evaluate_rule aldi_rule_all aldi_tx = false ∧
    evaluate_rule aldi_rule_any aldi_tx = true := by
  have hamt : create_condition_evaluator ⟨"amount", "<", "-50"⟩ aldi_tx = false := rfl
  have hpay : create_condition_evaluator ⟨"payee", "contains", "Aldi"⟩ aldi_tx = true := rfl
  constructor
  · have h := (C2_evaluate_rule_match_semantics aldi_rule_all aldi_tx).2.1 rfl
    cases hb : evaluate_rule aldi_rule_all aldi_tx with
    | false => rfl
    | true =>
      have hmem : (⟨"amount", "<", "-50"⟩ : RuleCondition) ∈ aldi_rule_all.conditions := by
        simp [aldi_rule_all]
      have hc := (h.mp hb).2 _ hmem
      rw [hamt] at hc
      exact Bool.noConfusion hc
  · refine ((C2_evaluate_rule_match_semantics aldi_rule_any aldi_tx).2.2 rfl).mpr ?_
    refine ⟨by simp [aldi_rule_any, aldi_rule_all], ⟨"payee", "contains", "Aldi"⟩, ?_, hpay⟩
    simp [aldi_rule_any, aldi_rule_all]

/-! ### Claim C10: evaluator totality and fallbacks -/

/-- C10: the condition evaluator is a total boolean function; a field
outside payee/amount/notes or an operator outside
contains/equals/less/greater evaluates to false, and a numeric comparison
evaluates to false whenever either side fails to parse as a float —
including for the text fields payee and notes. -/
theorem C10_condition_evaluator_total (condition : RuleCondition) (transaction : Transaction) :
    (condition.field ∉ (["payee", "amount", "notes"] : List String) →
      create_condition_evaluator condition transaction = false) ∧
    (condition.operator ∉ (["contains", "equals", "<", ">"] : List String) →
      create_condition_evaluator condition transaction = false) ∧
    (∀ fv, condition_field_value condition.field transaction = some fv →
      (condition.operator = "<" ∨ condition.operator = ">") →
      (py_float fv = none ∨ py_float condition.value = none) →
      create_condition_evaluator condition transaction = false) := by
  refine ⟨fun h => ?_, fun h => ?_, fun fv hfv hop hnone => ?_⟩
  · simp only [List.mem_cons, List.not_mem_nil, or_false, not_or] at h
    obtain ⟨h1, h2, h3⟩ := h
    unfold create_condition_evaluator condition_field_value
    rw [if_neg h1, if_neg h2, if_neg h3]
  · simp only [List.mem_cons, List.not_mem_nil, or_false, not_or] at h
    obtain ⟨h1, h2, h3, h4⟩ := h
    unfold create_condition_evaluator
    cases condition_field_value condition.field transaction with
    | none => rfl
    | some fv =>
      dsimp only
      rw [if_neg h1, if_neg h2, if_neg h3, if_neg h4]
  · unfold create_condition_evaluator
    rw [hfv]
    dsimp only
    rcases hop with hop | hop <;> rw [hop] <;>
      rcases hnone with hn | hn <;>
        cases hx : py_float fv <;> cases hy : py_float condition.value <;>
          simp_all

/-- Witness for C10: a numeric comparison on the payee field of a
non-numeric payee, an unknown field, and an unknown operator all evaluate to
false on concrete inputs. -/
theorem C10_condition_evaluator_total_witness :
    create_condition_evaluator ⟨"payee", "<", "-50"⟩ aldi_tx = false ∧
    create_condition_evaluator ⟨"iban", "contains", "x"⟩ aldi_tx = false ∧
    create_condition_evaluator ⟨"payee", "matches", "x"⟩ aldi_tx = false := by
  refine ⟨?_, ?_, ?_⟩
  · exact (C10_condition_evaluator_total ⟨"payee", "<", "-50"⟩ aldi_tx).2.2 "Aldi" rfl
      (Or.inl rfl) (Or.inl (by decide))
  · exact (C10_condition_evaluator_total ⟨"iban", "contains", "x"⟩ aldi_tx).1 (by decide)
  · exact (C10_condition_evaluator_total ⟨"payee", "matches", "x"⟩ aldi_tx).2.1 (by decide)

/-! ### Claim C6: unparseable transfer target -/

/-- C6, counterexample: rule `db6_rule` matches both transactions of `db6`;
its second action's value "abc" is not an integer literal.  The claim says
only that one action fails and the rest of the batch is still processed —
but the run stops with the uncaught `ValueError` after executing only the
first transaction's category update: transaction 2 (which also matches)
receives no commands at all. -/
theorem C6_transfer_parse_error_stops_batch :
    apply_rules_to_uncategorized db6 =
      ([StoreCmd.updateCategory 1 "X"], 0, some (PyErr.valueError "abc")) ∧
    evaluate_rule db6_rule db6_t2 = true ∧
    ∀ c ∈ (apply_rules_to_uncategorized db6).1, StoreCmd.tid c ≠ 2 := by
  refine ⟨rfl, rfl, by decide⟩

/-- Helper: the action loop executes the commands of the actions before the
first failing `mark_transfer` action and stops there with the
`ValueError`. -/
theorem apply_actions_go_error (tid : ℤ) (action : RuleAction) (post : List RuleAction)
    (htype : action.action_type = "mark_transfer") (hparse : py_int action.value = none) :
    ∀ pre : List RuleAction,
      (∀ b ∈ pre, ¬(b.action_type = "mark_transfer" ∧ py_int b.value = none)) →
      apply_actions_go tid (pre ++ action :: post) =
        ((pre.map (action_cmds tid)).flatten, some (PyErr.valueError action.value))
  | [], _ => by
    simp only [List.nil_append, List.map_nil, List.flatten_nil]
    unfold apply_actions_go
    rw [if_neg (by rw [htype]; decide), if_pos htype, hparse]
  | b :: pre', hpre => by
    have hb := hpre b (List.mem_cons_self b pre')
    have ih := apply_actions_go_error tid action post htype hparse pre'
      (fun x hx => hpre x (List.mem_cons_of_mem b hx))
    simp only [List.cons_append, List.map_cons, List.flatten_cons]
    unfold apply_actions_go
    by_cases h1 : b.action_type = "set_category"
    · rw [if_pos h1, ih]
      simp [action_cmds, h1]
    · rw [if_neg h1]
      by_cases h2 : b.action_type = "mark_transfer"
      · rw [if_pos h2]
        cases hpi : py_int b.value with
        | none => exact absurd ⟨h2, hpi⟩ hb
        | some acct =>
          rw [ih]
          simp [action_cmds, h1, h2, hpi]
      · rw [if_neg h2, ih]
        simp [action_cmds, h1, h2]

/-- C6, amended: when a `mark_transfer` action's value does not parse as an
integer, `int(action.value)` raises an uncaught `ValueError`: the actions
before it in the same rule have already executed, the remaining actions are
abandoned, and the error aborts the whole batch — no later transaction of
the run is processed. -/
theorem C6_transfer_parse_error_aborts_run
    (rule : Rule) (tid : ℤ) (pre : List RuleAction) (action : RuleAction)
    (post : List RuleAction)
    (hacts : rule.actions = pre ++ action :: post)
    (htype : action.action_type = "mark_transfer")
    (hparse : py_int action.value = none)
    (hpre : ∀ b ∈ pre, ¬(b.action_type = "mark_transfer" ∧ py_int b.value = none)) :
    apply_rule_actions rule tid =
      ((pre.map (action_cmds tid)).flatten, some (PyErr.valueError action.value)) ∧
    ∀ rules t ts cmds n e, apply_to_transaction rules t = (cmds, n, some e) →
      apply_loop rules (t :: ts) = (cmds, n, some e) := by
  constructor
  · unfold apply_rule_actions
    rw [hacts]
    exact apply_actions_go_error tid action post htype hparse pre hpre
  · intro rules t ts cmds n e happ
    unfold apply_loop
    rw [happ]

/-! ### Claim C1: priority order and first-match-wins -/

/-- Helper: the inner rule loop with its `break` computes exactly the result
of the first matching rule under `List.find?`. -/
theorem apply_to_transaction_eq_find (rules : List Rule) (t : Transaction) (tid : ℤ)
    (hid : t.id = some tid) :
    apply_to_transaction rules t =
      match rules.find? (fun r => evaluate_rule r t) with
      | none => ([], 0, none)
      | some r => applied_result r tid := by
  induction rules with
  | nil => rfl
  | cons r rest ih =>
    by_cases h : evaluate_rule r t
    · have hf : List.find? (fun r => evaluate_rule r t) (r :: rest) = some r := by
        simp [List.find?_cons, h]
      rw [hf]
      unfold apply_to_transaction
      rw [if_pos h, hid]
      rfl
    · have hf : List.find? (fun r => evaluate_rule r t) (r :: rest) =
          List.find? (fun r => evaluate_rule r t) rest := by
        simp [List.find?_cons, h]
      rw [hf]
      unfold apply_to_transaction
      rw [if_neg h]
      exact ih

/-- Helper: every command issued by the action loop targets the transaction
id it was called with. -/
theorem apply_actions_go_tid (tid : ℤ) (actions : List RuleAction) :
    ∀ c ∈ (apply_actions_go tid actions).1, StoreCmd.tid c = tid := by
  induction actions with
  | nil => intro c hc; simp [apply_actions_go] at hc
  | cons a rest ih =>
    intro c hc
    unfold apply_actions_go at hc
    by_cases h1 : a.action_type = "set_category"
    · rw [if_pos h1] at hc
      rcases hgo : apply_actions_go tid rest with ⟨cmds, e⟩
      rw [hgo] at hc
      dsimp at hc
      rcases List.mem_cons.mp hc with rfl | hc'
      · rfl
      · exact ih c (by rw [hgo]; exact hc')
    · rw [if_neg h1] at hc
      by_cases h2 : a.action_type = "mark_transfer"
      · rw [if_pos h2] at hc
        cases hpi : py_int a.value with
        | some acct =>
          rw [hpi] at hc
          rcases hgo : apply_actions_go tid rest with ⟨cmds, e⟩
          rw [hgo] at hc
          dsimp at hc
          rcases List.mem_cons.mp hc with rfl | hc'
          · rfl
          · exact ih c (by rw [hgo]; exact hc')
        | none =>
          rw [hpi] at hc
          simp at hc
      · rw [if_neg h2] at hc
        exact ih c hc

/-- Helper: every command issued for a transaction targets that
transaction's id. -/
theorem apply_to_transaction_tid (rules : List Rule) (t : Transaction) :
    ∀ c ∈ (apply_to_transaction rules t).1, t.id = some (StoreCmd.tid c) := by
  induction rules with
  | nil => intro c hc; simp [apply_to_transaction] at hc
  | cons r rest ih =>
    intro c hc
    unfold apply_to_transaction at hc
    by_cases h : evaluate_rule r t
    · rw [if_pos h] at hc
      cases hid : t.id with
      | none => rw [hid] at hc; simp at hc
      | some tid =>
        rw [hid] at hc
        dsimp only at hc
        rcases hra : apply_rule_actions r tid with ⟨cmds, e⟩
        rw [hra] at hc
        have hmem : c ∈ (apply_actions_go tid r.actions).1 := by
          have h' : apply_actions_go tid r.actions = (cmds, e) := hra
          rw [h']
          cases e <;> dsimp at hc <;> exact hc
        rw [apply_actions_go_tid tid r.actions c hmem]
    · rw [if_neg h] at hc
      exact ih c hc

/-- Helper: every command in the batch trace comes from some transaction of
the processed list. -/
theorem apply_loop_tid_source (rules : List Rule) (ts : List Transaction) :
    ∀ c ∈ (apply_loop rules ts).1, ∃ t ∈ ts, t.id = some (StoreCmd.tid c) := by
  induction ts with
  | nil => intro c hc; simp [apply_loop] at hc
  | cons t ts' ih =>
    intro c hc
    unfold apply_loop at hc
    rcases hat : apply_to_transaction rules t with ⟨c1, n1, e1⟩
    rw [hat] at hc
    cases e1 with
    | some e =>
      dsimp at hc
      exact ⟨t, List.mem_cons_self t ts', apply_to_transaction_tid rules t c (by rw [hat]; exact hc)⟩
    | none =>
      rcases hal : apply_loop rules ts' with ⟨c2, n2, e2⟩
      rw [hal] at hc
      dsimp at hc
      rcases List.mem_append.mp hc with hc' | hc'
      · exact ⟨t, List.mem_cons_self t ts',
          apply_to_transaction_tid rules t c (by rw [hat]; exact hc')⟩
      · obtain ⟨u, hu, huid⟩ := ih c (by rw [hal]; exact hc')
        exact ⟨u, List.mem_cons_of_mem t hu, huid⟩

/-- Helper: a successful batch over `t :: ts` decomposes into a successful
head step and a successful tail run. -/
theorem apply_loop_success_cons (rules : List Rule) (t : Transaction) (ts : List Transaction)
    (cmds : List StoreCmd) (n : Nat)
    (h : apply_loop rules (t :: ts) = (cmds, n, none)) :
    ∃ c1 n1 c2 n2, apply_to_transaction rules t = (c1, n1, none) ∧
      apply_loop rules ts = (c2, n2, none) ∧ cmds = c1 ++ c2 ∧ n = n1 + n2 := by
  unfold apply_loop at h
  rcases hat : apply_to_transaction rules t with ⟨c1, n1, e1⟩
  rw [hat] at h
  cases e1 with
  | some e => dsimp at h; simp at h
  | none =>
    rcases hal : apply_loop rules ts with ⟨c2, n2, e2⟩
    rw [hal] at h
    dsimp at h
    injection h with h1 h23
    injection h23 with h2 h3
    exact ⟨c1, n1, c2, n2, rfl, by rw [h3], h1.symm, h2.symm⟩

/-- Helper: in a successful batch over pairwise-distinct transaction ids,
the commands targeting one transaction's id are exactly the commands its own
loop iteration issued. -/
theorem apply_loop_filter (rules : List Rule) (ts : List Transaction)
    (cmds : List StoreCmd) (n : Nat)
    (hrun : apply_loop rules ts = (cmds, n, none))
    (hdist : ts.Pairwise (fun a b => a.id ≠ b.id))
    (t : Transaction) (tid : ℤ) (ht : t ∈ ts) (hid : t.id = some tid) :
    cmds.filter (fun c => StoreCmd.tid c == tid) = (apply_to_transaction rules t).1 := by
  induction ts generalizing cmds n with
  | nil => cases ht
  | cons u ts' ih =>
    obtain ⟨c1, n1, c2, n2, hat, hal, rfl, rfl⟩ :=
      apply_loop_success_cons rules u ts' cmds n hrun
    rw [List.filter_append]
    rcases List.mem_cons.mp ht with rfl | ht'
    · have hfilter1 : c1.filter (fun c => StoreCmd.tid c == tid) = c1 := by
        refine List.filter_eq_self.mpr (fun c hc => ?_)
        have h2 := apply_to_transaction_tid rules t c (by rw [hat]; exact hc)
        rw [hid] at h2
        have h3 : StoreCmd.tid c = tid := (Option.some.injEq _ _).mp h2.symm
        simp [h3]
      have hfilter2 : c2.filter (fun c => StoreCmd.tid c == tid) = [] := by
        refine List.filter_eq_nil_iff.mpr (fun c hc => ?_)
        obtain ⟨v, hv, hvid⟩ := apply_loop_tid_source rules ts' c (by rw [hal]; exact hc)
        have hne := (List.pairwise_cons.mp hdist).1 v hv
        simp only [beq_iff_eq]
        intro heq
        exact hne (by rw [hid, hvid, heq])
      rw [hfilter1, hfilter2, hat, List.append_nil]
    · have hfilter1 : c1.filter (fun c => StoreCmd.tid c == tid) = [] := by
        refine List.filter_eq_nil_iff.mpr (fun c hc => ?_)
        have h2 := apply_to_transaction_tid rules u c (by rw [hat]; exact hc)
        have hne := (List.pairwise_cons.mp hdist).1 t ht'
        simp only [beq_iff_eq]
        intro heq
        exact hne (by rw [h2, hid, heq])
      rw [hfilter1, List.nil_append]
      exact ih c2 n2 hal (List.pairwise_cons.mp hdist).2 ht'

/-- C1: in every successful run of `apply_rules_to_uncategorized` over a
database whose uncategorized rows carry pairwise-distinct ids, the rules
considered are the active rules sorted by priority descending with ties
broken by rule id ascending, and the store updates each uncategorized
transaction receives are exactly the actions of the first rule in that order
whose conditions match it — no later-matching rule's actions are ever
applied to it. -/
theorem C1_first_match_wins (db : DB) (cmds : List StoreCmd) (n : Nat)
    (hrun : apply_rules_to_uncategorized db = (cmds, n, none))
    (hdist : (get_uncategorized db).Pairwise (fun a b => a.id ≠ b.id))
    (t : Transaction) (tid : ℤ) (ht : t ∈ get_uncategorized db) (hid : t.id = some tid) :
    List.Sorted rule_order (get_rules db) ∧
    (get_rules db).Perm (db.rules.filter (fun r => r.is_active)) ∧
    cmds.filter (fun c => StoreCmd.tid c == tid) = first_rule_cmds (get_rules db) t tid := by
  refine ⟨List.sorted_insertionSort rule_order _, List.perm_insertionSort rule_order _, ?_⟩
  unfold apply_rules_to_uncategorized at hrun
  by_cases hre : (get_rules db).isEmpty
  · rw [if_pos hre] at hrun
    injection hrun with h1 h23
    have hnil : get_rules db = [] := List.isEmpty_iff.mp hre
    rw [← h1, hnil]
    rfl
  · rw [if_neg hre] at hrun
    have hmain := apply_loop_filter (get_rules db) (get_uncategorized db) cmds n hrun hdist
      t tid ht hid
    rw [hmain, apply_to_transaction_eq_find _ _ _ hid]
    unfold first_rule_cmds
    cases h : (get_rules db).find? (fun r => evaluate_rule r t) with
    | none => rfl
    | some r =>
      show (applied_result r tid).1 = (apply_rule_actions r tid).1
      unfold applied_result
      rcases apply_rule_actions r tid with ⟨c, e⟩
      cases e <;> rfl

/-- Witness for C1 on the fixture `db1`: rule 1 (priority 10) beats rule 2
(priority 5); the single transaction receives exactly rule 1's category
update. -/
theorem C1_first_match_wins_witness :
    List.Sorted rule_order (get_rules db1) ∧
    (get_rules db1).Perm (db1.rules.filter (fun r => r.is_active)) ∧
    ([StoreCmd.updateCategory 7 "Food"] : List StoreCmd).filter
        (fun c => StoreCmd.tid c == 7) = first_rule_cmds (get_rules db1) db1_t7 7 :=
  C1_first_match_wins db1 [StoreCmd.updateCategory 7 "Food"] 1 rfl (by decide)
    db1_t7 7 (by decide) rfl

/-! ### Claim C9, amended -/

/-- Helper: pairwise-distinct transaction ids identify transactions. -/
theorem pairwise_id_inj {l : List Transaction}
    (h : l.Pairwise (fun a b => a.id ≠ b.id)) :
    ∀ a ∈ l, ∀ b ∈ l, a.id = b.id → a = b := by
  induction l with
  | nil => intro a ha; cases ha
  | cons x xs ih =>
    obtain ⟨hx, hxs⟩ := List.pairwise_cons.mp h
    intro a ha b hb heq
    rcases List.mem_cons.mp ha with rfl | ha' <;> rcases List.mem_cons.mp hb with rfl | hb'
    · rfl
    · exact absurd heq (hx b hb')
    · exact absurd heq.symm (hx a ha')
    · exact ih hxs a ha' b hb' heq

/-- C9, amended: the round-trip equality holds on the domain where the two
paths see the same rows — a pool of uncategorized transactions with
pairwise-distinct non-null ids that fits inside `test_rule`'s row limit —
and with the tested rule first in the active-rule order: `test_rule` returns
exactly the rows matched by `evaluate_rule`, and those are exactly the rows
to which `apply_rules_to_uncategorized`'s loop applies that rule's actions.
Outside that domain the two differ (`test_rule` also returns
already-categorized rows and truncates at its limit). -/
theorem C9_test_rule_matches_apply (db : DB) (rule : Rule) (rest : List Rule)
    (hrules : get_rules db = rule :: rest)
    (huncat : ∀ t ∈ db.transactions, t.is_categorized = false)
    (hids : ∀ t ∈ db.transactions, t.id.isSome)
    (hdist : db.transactions.Pairwise (fun a b => a.id ≠ b.id))
    (hlen : db.transactions.length ≤ 100) :
    test_rule db rule 100 = (get_uncategorized db).filter (fun t => evaluate_rule rule t) ∧
    ∀ t ∈ get_uncategorized db, ∀ tid, t.id = some tid → evaluate_rule rule t = true →
      apply_to_transaction (get_rules db) t = applied_result rule tid := by
  have htake100000 : db.transactions.take 100000 = db.transactions :=
    List.take_of_length_le (le_trans hlen (by norm_num))
  have huncat_eq : get_uncategorized db = db.transactions := by
    unfold get_uncategorized
    rw [List.filter_eq_self.mpr (fun t ht => by simp [huncat t ht])]
    exact List.take_of_length_le (le_trans hlen (by norm_num))
  constructor
  · unfold test_rule
    simp only [htake100000, List.take_of_length_le hlen, huncat_eq]
    refine List.filter_congr (fun t ht => ?_)
    cases hid : t.id with
    | none => exact absurd (hids t ht) (by rw [hid]; simp)
    | some i =>
      dsimp only
      rcases hev : evaluate_rule rule t with _ | _
      · have hnomem : i ∉ db.transactions.filterMap (fun u =>
            match u.id with
            | some j => if evaluate_rule rule u then some j else none
            | none => none) := by
          intro hmem
          obtain ⟨u, hu, hfu⟩ := List.mem_filterMap.mp hmem
          cases huid : u.id with
          | none => rw [huid] at hfu; exact Option.noConfusion hfu
          | some j =>
            rw [huid] at hfu
            dsimp only at hfu
            by_cases hevu : evaluate_rule rule u
            · rw [if_pos hevu] at hfu
              have hji : j = i := Option.some.inj hfu
              have hut : u = t := pairwise_id_inj hdist u hu t ht (by rw [huid, hid, hji])
              rw [hut, hev] at hevu
              exact Bool.noConfusion hevu
            · rw [if_neg hevu] at hfu
              exact Option.noConfusion hfu
        simpa using hnomem
      · have hmem : i ∈ db.transactions.filterMap (fun u =>
            match u.id with
            | some j => if evaluate_rule rule u then some j else none
            | none => none) :=
          List.mem_filterMap.mpr ⟨t, ht, by rw [hid]; simp [hev]⟩
        simpa using hmem
  · intro t ht tid hid hev
    rw [hrules]
    unfold apply_to_transaction
    rw [if_pos hev, hid]
    rfl

/-- Witness for C9, amended, on `db9w`: two uncategorized rows with distinct
ids, one matching; the preview list equals the matched sublist and the
matched row gets the rule's actions applied. -/
theorem C9_test_rule_matches_apply_witness :
    test_rule db9w db9_rule 100 =
      (get_uncategorized db9w).filter (fun t => evaluate_rule db9_rule t) ∧
    ∀ t ∈ get_uncategorized db9w, ∀ tid, t.id = some tid →
      evaluate_rule db9_rule t = true →
      apply_to_transaction (get_rules db9w) t = applied_result db9_rule tid :=
  C9_test_rule_matches_apply db9w db9_rule [] rfl (by decide) (by decide) (by decide)
    (by decide)

/-! ### Claim C3: imported-id derivation -/

/-- Helper: appending the row itself to the prefix raises its occurrence
count by one. -/
theorem occurrence_index_append_self (prev : List NRow) (row : NRow) :
    occurrence_index (prev ++ [row]) row = occurrence_index prev row + 1 := by
  unfold occurrence_index
  rw [List.countP_append]
  simp

/-- Helper: the id assignment is length-preserving. -/
theorem add_imported_ids_go_length (prev rows : List NRow) :
    (add_imported_ids_go prev rows).length = rows.length := by
  induction rows generalizing prev with
  | nil => rfl
  | cons x rest ih => simp [add_imported_ids_go, ih]

/-- Helper: `add_imported_ids` is length-preserving. -/
theorem add_imported_ids_length (rows : List NRow) :
    (add_imported_ids rows).length = rows.length :=
  add_imported_ids_go_length [] rows

/-- Helper: the element at index `i` of the id assignment pairs the row with
the id built from its occurrence count over the accumulated prefix. -/
theorem add_imported_ids_go_getElem (prev rows : List NRow) (i : Nat) (r : NRow)
    (h : rows[i]? = some r) :
    (add_imported_ids_go prev rows)[i]? =
      some (r, create_imported_id r.date r.amount r.payee (r.notes.getD "")
        (occurrence_index (prev ++ rows.take i) r)) := by
  induction rows generalizing prev i with
  | nil => simp at h
  | cons x rest ih =>
    cases i with
    | zero =>
      simp only [List.getElem?_cons_zero, Option.some.injEq] at h
      subst h
      simp [add_imported_ids_go]
    | succ n =>
      rw [List.getElem?_cons_succ] at h
      unfold add_imported_ids_go
      rw [List.getElem?_cons_succ, ih (prev ++ [x]) n h]
      have hl : prev ++ [x] ++ rest.take n = prev ++ (x :: rest).take (n + 1) := by
        rw [List.take_succ_cons, List.append_assoc]
        rfl
      rw [hl]

/-- Helper: at the top level the occurrence index of row `i` is the number
of identical rows among the first `i` rows. -/
theorem add_imported_ids_getElem (rows : List NRow) (i : Nat) (r : NRow)
    (h : rows[i]? = some r) :
    (add_imported_ids rows)[i]? =
      some (r, create_imported_id r.date r.amount r.payee (r.notes.getD "")
        ((rows.take i).countP (fun p => p == r))) := by
  have h2 := add_imported_ids_go_getElem [] rows i r h
  simpa [add_imported_ids, occurrence_index] using h2

/-- Helper: every row of a replicated list counts all its predecessors. -/
theorem countP_replicate_self (n : Nat) (a : NRow) :
    (List.replicate n a).countP (fun p => p == a) = n := by
  induction n with
  | zero => rfl
  | succ m ih => simp [List.replicate_succ, List.countP_cons, ih]

set_option maxRecDepth 8000 in
/-- Helper: the imported id of the example row at occurrence 51254,
evaluated through MD5. -/
theorem c3_id_occ_51254 :
    create_imported_id "2024-03-01" (mkRat (-41) 2) "Amazon" "Bestellung" 51254 =
      "2024-03-01_-20.5_cc6af495" := rfl

set_option maxRecDepth 8000 in
/-- Helper: the imported id of the example row at occurrence 57961,
evaluated through MD5 — the truncated digest collides with occurrence
51254. -/
theorem c3_id_occ_57961 :
    create_imported_id "2024-03-01" (mkRat (-41) 2) "Amazon" "Bestellung" 57961 =
      "2024-03-01_-20.5_cc6af495" := rfl

/-- C3, counterexample: in a file consisting of 57962 copies of the spec's
example row, the rows at positions 51254 and 57961 are identical in all four
fields yet receive the *same* imported id `2024-03-01_-20.5_cc6af495`: the
8-hex truncation of MD5 collides on the two occurrence values, so two rows
identical in all four fields within one file do not always receive
different imported ids. -/
theorem C3_identical_rows_can_collide :
    (List.replicate 57962 c3_row)[51254]? = some c3_row ∧
    (List.replicate 57962 c3_row)[57961]? = some c3_row ∧
    (51254 : Nat) ≠ 57961 ∧
    ((add_imported_ids (List.replicate 57962 c3_row))[51254]?).map Prod.snd =
      some "2024-03-01_-20.5_cc6af495" ∧
    ((add_imported_ids (List.replicate 57962 c3_row))[57961]?).map Prod.snd =
      some "2024-03-01_-20.5_cc6af495" := by
  have key : ∀ i : Nat, i < 57962 →
      ((add_imported_ids (List.replicate 57962 c3_row))[i]?).map Prod.snd =
        some (create_imported_id "2024-03-01" (mkRat (-41) 2) "Amazon" "Bestellung" i) := by
    intro i hi
    rw [add_imported_ids_getElem (List.replicate 57962 c3_row) i c3_row
      (by rw [List.getElem?_replicate, if_pos hi])]
    rw [List.take_replicate, countP_replicate_self]
    rw [Nat.min_eq_left (le_of_lt hi)]
    rfl
  refine ⟨by rw [List.getElem?_replicate, if_pos (by norm_num)],
    by rw [List.getElem?_replicate, if_pos (by norm_num)],
    by decide, ?_, ?_⟩
  · rw [key 51254 (by norm_num), c3_id_occ_51254]
  · rw [key 57961 (by norm_num), c3_id_occ_57961]

/-- Helper: hex rendering yields two characters per byte. -/
theorem hex_chars_length (bytes : List Nat) : (hex_chars bytes).length = 2 * bytes.length := by
  induction bytes with
  | nil => rfl
  | cons b rest ih =>
    have h : hex_chars (b :: rest) = hexdig (b / 16) :: hexdig (b % 16) :: hex_chars rest := rfl
    rw [h]
    simp [ih]
    omega

/-- Helper: the MD5 digest has sixteen bytes. -/
theorem md5_digest_bytes_length (msg : List Nat) : (md5_digest_bytes msg).length = 16 := by
  unfold md5_digest_bytes
  rcases md5_words msg with ⟨a, b, c, d⟩
  simp [le4]

/-- Helper: every digest byte is below 256. -/
theorem md5_digest_bytes_lt (msg : List Nat) : ∀ b ∈ md5_digest_bytes msg, b < 256 := by
  have h4 : ∀ w : Nat, ∀ x ∈ le4 w, x < 256 := by
    intro w x hx
    simp only [le4, List.mem_cons, List.not_mem_nil, or_false] at hx
    rcases hx with h | h | h | h <;> subst h <;> omega
  unfold md5_digest_bytes
  rcases md5_words msg with ⟨a, b, c, d⟩
  intro x hx
  rcases List.mem_append.mp hx with hx | hx
  · rcases List.mem_append.mp hx with hx | hx
    · rcases List.mem_append.mp hx with hx | hx
      · exact h4 a x hx
      · exact h4 b x hx
    · exact h4 c x hx
  · exact h4 d x hx

/-- Helper: the hexdigest has 32 characters. -/
theorem md5_hexdigest_length (msg : List Nat) : (md5_hexdigest msg).length = 32 := by
  unfold md5_hexdigest
  rw [hex_chars_length, md5_digest_bytes_length]

/-- Helper: hex rendering of bytes below 256 produces hex digits. -/
theorem hex_chars_mem (bytes : List Nat) (hb : ∀ b ∈ bytes, b < 256) :
    ∀ ch ∈ hex_chars bytes, ch ∈ hex_digit_chars := by
  induction bytes with
  | nil => intro ch hch; simp [hex_chars] at hch
  | cons b rest ih =>
    intro ch hch
    have hb0 : b < 256 := hb b (List.mem_cons_self b rest)
    have hdig : ∀ n, n < 16 → hexdig n ∈ hex_digit_chars := by decide
    have h : hex_chars (b :: rest) = hexdig (b / 16) :: hexdig (b % 16) :: hex_chars rest := rfl
    rw [h] at hch
    rcases List.mem_cons.mp hch with rfl | hch'
    · exact hdig _ (Nat.div_lt_of_lt_mul (by omega))
    · rcases List.mem_cons.mp hch' with rfl | hch''
      · exact hdig _ (Nat.mod_lt _ (by norm_num))
      · exact ih (fun x hx => hb x (List.mem_cons_of_mem b hx)) ch hch''

set_option maxRecDepth 8000 in
/-- Helper: the ids of the spec's two-identical-row example, evaluated
through MD5 — occurrences 0 and 1 produce different ids. -/
theorem add_imported_ids_two_example :
    (add_imported_ids [c3_row, c3_row]).map Prod.snd =
      ["2024-03-01_-20.5_ab6832d3", "2024-03-01_-20.5_f214196e"] := rfl

/-- C3, amended: the id assignment groups rows by the exact
(date, amount, payee, notes) tuple and gives row `i` the occurrence index
counting its identical predecessors; rows with equal tuple and equal
occurrence — in particular the same file re-processed — receive identical
ids; two identical rows within one file receive strictly increasing
occurrence indices, hence different digest inputs, and their ids differ
whenever the truncated digest does not collide (as in the spec's concrete
two-row example) — but not always, per the counterexample; each id has the
form date, amount and an 8-hex-character digest of the five inputs. -/
theorem C3_imported_id_assignment :
    (∀ rows : List NRow, (add_imported_ids rows).length = rows.length) ∧
    (∀ (rows : List NRow) (i : Nat) (r : NRow), rows[i]? = some r →
      (add_imported_ids rows)[i]? =
        some (r, create_imported_id r.date r.amount r.payee (r.notes.getD "")
          ((rows.take i).countP (fun p => p == r)))) ∧
    (∀ (rows1 rows2 : List NRow) (i1 i2 : Nat) (r : NRow),
      rows1[i1]? = some r → rows2[i2]? = some r →
      (rows1.take i1).countP (fun p => p == r) =
        (rows2.take i2).countP (fun p => p == r) →
      ((add_imported_ids rows1)[i1]?).map Prod.snd =
        ((add_imported_ids rows2)[i2]?).map Prod.snd) ∧
    (∀ (rows : List NRow) (i j : Nat) (r : NRow), i < j →
      rows[i]? = some r → rows[j]? = some r →
      (rows.take i).countP (fun p => p == r) < (rows.take j).countP (fun p => p == r)) ∧
    ((add_imported_ids [c3_row, c3_row]).map Prod.snd =
      ["2024-03-01_-20.5_ab6832d3", "2024-03-01_-20.5_f214196e"] ∧
      ("2024-03-01_-20.5_ab6832d3" : String) ≠ "2024-03-01_-20.5_f214196e") ∧
    (∀ (d : String) (a : ℚ) (p nt : String) (occ : Nat),
      ∃ suffix : String,
        create_imported_id d a p nt occ = d ++ "_" ++ py_float_repr a ++ "_" ++ suffix ∧
        suffix.length = 8 ∧ ∀ ch ∈ suffix.toList, ch ∈ hex_digit_chars) := by
  refine ⟨add_imported_ids_length, add_imported_ids_getElem, ?_, ?_,
    ⟨add_imported_ids_two_example, by decide⟩, ?_⟩
  · intro rows1 rows2 i1 i2 r h1 h2 hcount
    rw [add_imported_ids_getElem rows1 i1 r h1, add_imported_ids_getElem rows2 i2 r h2,
      hcount]
  · intro rows i j r hij hi hj
    have hstep : (rows.take (i + 1)).countP (fun p => p == r) =
        (rows.take i).countP (fun p => p == r) + 1 := by
      rw [List.take_succ, List.countP_append, hi]
      simp
    have hmono : (rows.take (i + 1)).countP (fun p => p == r) ≤
        (rows.take j).countP (fun p => p == r) := by
      have hsub : List.Sublist (rows.take (i + 1)) (rows.take j) := by
        have h1 : (rows.take j).take (i + 1) = rows.take (i + 1) := by
          rw [List.take_take, Nat.min_eq_left (by omega)]
        rw [← h1]
        exact List.take_sublist (i + 1) (rows.take j)
      exact hsub.countP_le _
    omega
  · intro d a p nt occ
    refine ⟨String.mk ((md5_hexdigest (utf8_bytes
      (d ++ "_" ++ py_float_repr a ++ "_" ++ p ++ "_" ++ nt ++ "_" ++ toString occ))).take 8),
      rfl, ?_, ?_⟩
    · show (List.take 8 _).length = 8
      rw [List.length_take, md5_hexdigest_length]
      norm_num
    · intro ch hch
      have hch' : ch ∈ md5_hexdigest (utf8_bytes
          (d ++ "_" ++ py_float_repr a ++ "_" ++ p ++ "_" ++ nt ++ "_" ++ toString occ)) :=
        List.take_subset 8 _ hch
      exact hex_chars_mem _ (md5_digest_bytes_lt _) ch hch'

/-- Witness for C3, amended, at concrete inputs: the element
characterization and the occurrence monotonicity on the two-identical-row
file, and the id shape at the spec's example row. -/
theorem C3_imported_id_assignment_witness :
    (add_imported_ids [c3_row, c3_row])[1]? =
      some (c3_row, create_imported_id c3_row.date c3_row.amount c3_row.payee
        (c3_row.notes.getD "") (([c3_row, c3_row].take 1).countP (fun p => p == c3_row))) ∧
    (([c3_row, c3_row].take 0).countP (fun p => p == c3_row) <
      ([c3_row, c3_row].take 1).countP (fun p => p == c3_row)) ∧
    ∃ suffix : String,
      create_imported_id "2024-03-01" (mkRat (-41) 2) "Amazon" "Bestellung" 0 =
        "2024-03-01" ++ "_" ++ py_float_repr (mkRat (-41) 2) ++ "_" ++ suffix ∧
      suffix.length = 8 ∧ ∀ ch ∈ suffix.toList, ch ∈ hex_digit_chars :=
  ⟨C3_imported_id_assignment.2.1 [c3_row, c3_row] 1 c3_row rfl,
    C3_imported_id_assignment.2.2.2.1 [c3_row, c3_row] 0 1 c3_row (by decide) rfl rfl,
    C3_imported_id_assignment.2.2.2.2.2 "2024-03-01" (mkRat (-41) 2) "Amazon" "Bestellung" 0⟩

/-! ### Claim C4: duplicate filter and idempotent re-import -/

/-- Helper: one import run with its lets expanded. -/
theorem import_transactions_eq (store : List Transaction) (aid : ℤ) (rows : List NRow) :
    import_transactions store aid rows =
      (store ++ (filter_duplicate_transactions (add_imported_ids rows)
          (get_transactions_window store aid)).1.map (promote aid),
       ⟨(add_imported_ids rows).length,
        (filter_duplicate_transactions (add_imported_ids rows)
          (get_transactions_window store aid)).1.length,
        (filter_duplicate_transactions (add_imported_ids rows)
          (get_transactions_window store aid)).2.length⟩) := rfl

/-- Helper: when the account's stored rows fit within the 100000-row limit,
the existing-rows window is a permutation of all of them — sorting and
reversing move rows around but drop none. -/
theorem get_transactions_window_perm (store : List Transaction) (aid : ℤ)
    (hlen : (store.filter (fun t => t.account_id == aid)).length ≤ 100000) :
    List.Perm (get_transactions_window store aid)
      (store.filter (fun t => t.account_id == aid)) := by
  unfold get_transactions_window
  have hp : List.Perm
      (List.insertionSort date_desc
        (store.filter (fun t => t.account_id == aid)).reverse)
      (store.filter (fun t => t.account_id == aid)) :=
    (List.perm_insertionSort date_desc _).trans (List.reverse_perm _)
  rw [List.take_of_length_le (by rw [hp.length_eq]; exact hlen)]
  exact hp

/-- Helper: a candidate id is in the duplicate list iff it is among the
non-null stored ids of the rows handed to `find_duplicates`. -/
theorem find_duplicates_mem (import_ids : List String) (existing : List Transaction)
    (i : String) (hi : i ∈ import_ids) :
    i ∈ find_duplicates import_ids existing ↔
      i ∈ existing.filterMap (fun t => t.imported_id) := by
  unfold find_duplicates
  by_cases he : existing.isEmpty
  · rw [if_pos he]
    have hnil : existing = [] := List.isEmpty_iff.mp he
    subst hnil
    simp
  · rw [if_neg he]
    constructor
    · intro h
      have h2 := List.mem_filter.mp h
      simpa using h2.2
    · intro h
      exact List.mem_filter.mpr ⟨hi, by simpa using h⟩

/-- Helper: the duplicate half of `filter_duplicate_transactions` holds
exactly the candidates whose id occurs among the existing rows' ids. -/
theorem filter_duplicate_mem (import_rows : List (NRow × String))
    (existing : List Transaction) (p : NRow × String) :
    p ∈ (filter_duplicate_transactions import_rows existing).2 ↔
      p ∈ import_rows ∧ p.2 ∈ existing.filterMap (fun t => t.imported_id) := by
  unfold filter_duplicate_transactions
  dsimp only
  rw [List.mem_filter]
  constructor
  · rintro ⟨hmem, hc⟩
    refine ⟨hmem, ?_⟩
    have hin : p.2 ∈ find_duplicates (import_rows.map (fun p => p.2)) existing := by
      simpa using hc
    exact (find_duplicates_mem _ _ _ (List.mem_map.mpr ⟨p, hmem, rfl⟩)).mp hin
  · rintro ⟨hmem, hex⟩
    refine ⟨hmem, ?_⟩
    have h2 := (find_duplicates_mem (import_rows.map (fun p => p.2)) existing p.2
      (List.mem_map.mpr ⟨p, hmem, rfl⟩)).mpr hex
    simpa using h2

/-- Helper: after one import run every candidate id of the file is among
the account's stored ids — provided the account's rows fit in the 100000
window. -/
theorem reimport_ids_present (store : List Transaction) (aid : ℤ) (rows : List NRow)
    (hlen : (store.filter (fun t => t.account_id == aid)).length ≤ 100000) :
    ∀ p ∈ add_imported_ids rows,
      p.2 ∈ ((import_transactions store aid rows).1.filter
        (fun t => t.account_id == aid)).filterMap (fun t => t.imported_id) := by
  intro p hp
  rw [import_transactions_eq]
  rw [List.filter_append, List.filterMap_append]
  by_cases hc : p ∈ (filter_duplicate_transactions (add_imported_ids rows)
      (get_transactions_window store aid)).2
  · have hwin : p.2 ∈ (get_transactions_window store aid).filterMap
        (fun t => t.imported_id) := ((filter_duplicate_mem _ _ p).mp hc).2
    exact List.mem_append_left _
      (((get_transactions_window_perm store aid hlen).filterMap _).mem_iff.mp hwin)
  · have hnew : p ∈ (filter_duplicate_transactions (add_imported_ids rows)
        (get_transactions_window store aid)).1 := by
      unfold filter_duplicate_transactions at hc ⊢
      dsimp only at hc ⊢
      rw [List.mem_filter] at hc ⊢
      refine ⟨hp, ?_⟩
      cases hb : (find_duplicates ((add_imported_ids rows).map (fun p => p.2))
          (get_transactions_window store aid)).contains p.2 with
      | false => rfl
      | true => exact absurd ⟨hp, hb⟩ hc
    refine List.mem_append_right _ (List.mem_filterMap.mpr
      ⟨promote aid p, List.mem_filter.mpr
        ⟨List.mem_map.mpr ⟨p, hnew, rfl⟩, by simp [promote]⟩, rfl⟩)

/-- Helper: within the 100000-row window, re-importing the same rows into
the same account classifies every row as a duplicate and inserts nothing. -/
theorem reimport_idempotent (store : List Transaction) (aid : ℤ) (rows : List NRow)
    (hlen : (store.filter (fun t => t.account_id == aid)).length + rows.length ≤ 100000) :
    (reimport store aid rows).2.duplicates = rows.length ∧
    (reimport store aid rows).2.imported = 0 ∧
    (reimport store aid rows).1 = (import_transactions store aid rows).1 := by
  have hpresent := reimport_ids_present store aid rows (by omega)
  have hlen2 : ((import_transactions store aid rows).1.filter
      (fun t => t.account_id == aid)).length ≤ 100000 := by
    rw [import_transactions_eq]
    dsimp only
    rw [List.filter_append]
    have h1 : (((filter_duplicate_transactions (add_imported_ids rows)
        (get_transactions_window store aid)).1.map (promote aid)).filter
          (fun t => t.account_id == aid)).length ≤ rows.length := by
      calc (((filter_duplicate_transactions (add_imported_ids rows)
            (get_transactions_window store aid)).1.map (promote aid)).filter
              (fun t => t.account_id == aid)).length
          ≤ ((filter_duplicate_transactions (add_imported_ids rows)
            (get_transactions_window store aid)).1.map (promote aid)).length :=
            List.length_filter_le _ _
        _ = (filter_duplicate_transactions (add_imported_ids rows)
            (get_transactions_window store aid)).1.length := List.length_map _ _
        _ ≤ (add_imported_ids rows).length := by
            unfold filter_duplicate_transactions
            dsimp only
            exact List.length_filter_le _ _
        _ = rows.length := add_imported_ids_length rows
    rw [List.length_append]
    omega
  have hw := get_transactions_window_perm (import_transactions store aid rows).1 aid hlen2
  have hdup_contains : ∀ p ∈ add_imported_ids rows,
      (find_duplicates ((add_imported_ids rows).map (fun p => p.2))
        (get_transactions_window (import_transactions store aid rows).1 aid)).contains
          p.2 = true := by
    intro p hp
    have hpw : p.2 ∈ (get_transactions_window
        (import_transactions store aid rows).1 aid).filterMap
          (fun t => t.imported_id) := (hw.filterMap _).mem_iff.mpr (hpresent p hp)
    have h2 : p ∈ (filter_duplicate_transactions (add_imported_ids rows)
        (get_transactions_window (import_transactions store aid rows).1 aid)).2 :=
      (filter_duplicate_mem _ _ p).mpr ⟨hp, hpw⟩
    unfold filter_duplicate_transactions at h2
    dsimp only at h2
    exact (List.mem_filter.mp h2).2
  have hnew_nil : (filter_duplicate_transactions (add_imported_ids rows)
      (get_transactions_window (import_transactions store aid rows).1 aid)).1 = [] := by
    unfold filter_duplicate_transactions
    dsimp only
    refine List.filter_eq_nil_iff.mpr (fun p hp => ?_)
    rw [hdup_contains p hp]
    decide
  have hdup_self : (filter_duplicate_transactions (add_imported_ids rows)
      (get_transactions_window (import_transactions store aid rows).1 aid)).2 =
      add_imported_ids rows := by
    unfold filter_duplicate_transactions
    dsimp only
    exact List.filter_eq_self.mpr (fun p hp => by rw [hdup_contains p hp])
  unfold reimport
  rw [import_transactions_eq ((import_transactions store aid rows).1)]
  rw [hnew_nil, hdup_self]
  refine ⟨?_, ?_, ?_⟩
  · exact add_imported_ids_length rows
  · rfl
  · simp

/-- C4: the claim's filter-level sentence holds against the rows the filter
is given, and the idempotent-re-import consequence holds whenever the
account's stored rows plus the file's rows fit within the existing-rows
query's window (`ORDER BY t.date DESC, t.id DESC LIMIT 100000`), so that no
row can be pushed out of it; the counterexample shows the claim fails as
stated once the window overflows.  This is the amended theorem. -/
theorem C4_duplicate_iff_and_window_idempotent :
    (∀ (import_rows : List (NRow × String)) (existing : List Transaction)
        (p : NRow × String),
      p ∈ (filter_duplicate_transactions import_rows existing).2 ↔
        p ∈ import_rows ∧ p.2 ∈ existing.filterMap (fun t => t.imported_id)) ∧
    (∀ (store : List Transaction) (aid : ℤ) (rows : List NRow),
      rows.Pairwise (fun a b => a ≠ b) →
      (store.filter (fun t => t.account_id == aid)).length + rows.length ≤ 100000 →
      (reimport store aid rows).2.duplicates = rows.length ∧
      (reimport store aid rows).2.imported = 0 ∧
      (reimport store aid rows).1 = (import_transactions store aid rows).1) :=
  ⟨filter_duplicate_mem,
    fun store aid rows _ hlen => reimport_idempotent store aid rows hlen⟩

/-- Witness for C4, amended, on a one-row file over the empty store: the
second run reports one duplicate, zero imports, and leaves the store
unchanged. -/
theorem C4_duplicate_iff_and_window_idempotent_witness :
    (reimport [] 1 [c4_row]).2.duplicates = ([c4_row] : List NRow).length ∧
    (reimport [] 1 [c4_row]).2.imported = 0 ∧
    (reimport [] 1 [c4_row]).1 = (import_transactions [] 1 [c4_row]).1 :=
  C4_duplicate_iff_and_window_idempotent.2 [] 1 [c4_row] (by simp) (by simp)

set_option maxRecDepth 8000 in
/-- Helper: the imported id of the one-row file, evaluated through MD5. -/
theorem c4_cid_eval : c4_cid = "2024-01-01_-5.0_0e4fa2bd" := rfl

/-- Helper: that id differs from the stored id "p". -/
theorem c4_cid_ne_p : c4_cid ≠ "p" := by
  rw [c4_cid_eval]
  decide

/-- Helper: `filterMap` over a replicated row. -/
theorem filterMap_replicate_some {α β : Type} (f : α → Option β) (a : α) (b : β)
    (hf : f a = some b) (n : Nat) :
    (List.replicate n a).filterMap f = List.replicate n b := by
  induction n with
  | zero => rfl
  | succ m ih =>
    rw [List.replicate_succ, List.filterMap_cons_some hf, ih, ← List.replicate_succ]

/-- Helper: every row of the full store belongs to account 1. -/
theorem c4_store_filter : c4_store.filter (fun t => t.account_id == 1) = c4_store := by
  unfold c4_store
  rw [List.filter_replicate, if_pos (show (c4_prow.account_id == 1) = true from rfl)]

/-- Helper: the full store has exactly 100000 rows. -/
theorem c4_store_len : c4_store.length = 100000 := by
  unfold c4_store
  exact List.length_replicate 100000 c4_prow

/-- Helper: the stored ids of the full store are 100000 copies of "p". -/
theorem c4_store_ids : c4_store.filterMap (fun t => t.imported_id) =
    List.replicate 100000 "p" := by
  unfold c4_store
  exact filterMap_replicate_some (fun t => t.imported_id) c4_prow "p" rfl 100000

/-- Helper: the full store is not empty. -/
theorem c4_store_not_empty : c4_store.isEmpty = false := by
  rw [List.isEmpty_eq_false_iff_exists_mem]
  exact ⟨c4_prow, by unfold c4_store; exact List.mem_replicate.mpr ⟨by norm_num, rfl⟩⟩

/-- Helper: the file id never occurs among the stored ids. -/
theorem c4_cid_not_contains :
    (List.replicate 100000 "p").contains c4_cid = false := by
  cases hb : (List.replicate 100000 "p").contains c4_cid with
  | false => rfl
  | true =>
    have hmem : c4_cid ∈ List.replicate 100000 "p" := List.mem_of_elem_eq_true hb
    exact absurd (List.mem_replicate.mp hmem).2 c4_cid_ne_p

/-- Helper: against the full store the one candidate is classified new. -/
theorem c4_fd : filter_duplicate_transactions [(c4_row, c4_cid)] c4_store =
    ([(c4_row, c4_cid)], []) := by
  unfold filter_duplicate_transactions find_duplicates
  rw [if_neg (by rw [c4_store_not_empty]; decide)]
  dsimp only
  rw [c4_store_ids]
  have hstep : List.filter (fun i => (List.replicate 100000 "p").contains i)
      (List.map (fun p => p.2) [(c4_row, c4_cid)]) = [] := by
    rw [List.map_cons, List.map_nil, List.filter_cons]
    dsimp only
    rw [c4_cid_not_contains]
    rfl
  rw [hstep]
  rfl

/-- Helper: `orderedInsert` of an element into copies of itself. -/
theorem orderedInsert_replicate_self {α : Type} (r : α → α → Prop) [DecidableRel r]
    (a : α) (n : Nat) :
    List.orderedInsert r a (List.replicate n a) = List.replicate (n + 1) a := by
  induction n with
  | zero => rfl
  | succ m ih =>
    rw [List.replicate_succ]
    by_cases h : r a a
    · rw [List.orderedInsert, if_pos h]
      rfl
    · rw [List.orderedInsert, if_neg h, ih]
      rfl

/-- Helper: a constant list is already sorted. -/
theorem insertionSort_replicate {α : Type} (r : α → α → Prop) [DecidableRel r]
    (a : α) (n : Nat) :
    List.insertionSort r (List.replicate n a) = List.replicate n a := by
  induction n with
  | zero => rfl
  | succ m ih =>
    rw [List.replicate_succ, List.insertionSort, ih, orderedInsert_replicate_self]
    rfl

/-- Helper: an element unrelated to `b` is inserted after all copies of
`b`. -/
theorem orderedInsert_replicate_not {α : Type} (r : α → α → Prop) [DecidableRel r]
    (a b : α) (h : ¬ r a b) (n : Nat) :
    List.orderedInsert r a (List.replicate n b) = List.replicate n b ++ [a] := by
  induction n with
  | zero => rfl
  | succ m ih =>
    rw [List.replicate_succ, List.orderedInsert, if_neg h, ih]
    rfl

/-- Helper: the file's row is dated strictly before every stored row. -/
theorem c4_promoted_older : ¬ date_desc c4_promoted c4_prow := by
  have hlt : date_lt c4_promoted.date c4_prow.date := by
    show date_lt "2024-01-01" "2024-05-01"
    decide
  exact fun h => h hlt

/-- Helper: the existing-rows window of the full store is the store itself
— exactly 100000 rows, all with the same date. -/
theorem c4_window1 : get_transactions_window c4_store 1 = c4_store := by
  unfold get_transactions_window
  rw [c4_store_filter]
  unfold c4_store
  rw [List.reverse_replicate, insertionSort_replicate]
  exact List.take_of_length_le (le_of_eq (List.length_replicate 100000 c4_prow))

/-- Helper: after the first import the appended row — the oldest by date —
sorts to the end of the date-descending order and is cut off by the
100000-row limit: the window is again the original store. -/
theorem c4_window2 : get_transactions_window (c4_store ++ [c4_promoted]) 1 =
    c4_store := by
  unfold get_transactions_window
  have hfil : (c4_store ++ [c4_promoted]).filter (fun t => t.account_id == 1) =
      c4_store ++ [c4_promoted] := by
    rw [List.filter_append, c4_store_filter]
    rfl
  rw [hfil, List.reverse_append,
    show ([c4_promoted] : List Transaction).reverse = [c4_promoted] from rfl]
  unfold c4_store
  rw [List.reverse_replicate, List.singleton_append, List.insertionSort,
    insertionSort_replicate,
    orderedInsert_replicate_not date_desc c4_promoted c4_prow c4_promoted_older 100000]
  exact List.take_left' (List.length_replicate 100000 c4_prow)

/-- Helper: the first import inserts the promoted row. -/
theorem c4_run1 : import_transactions c4_store 1 [c4_row] =
    (c4_store ++ [c4_promoted], ⟨1, 1, 0⟩) := by
  rw [import_transactions_eq, c4_window1]
  rw [show add_imported_ids [c4_row] = [(c4_row, c4_cid)] from rfl]
  rw [c4_fd]
  rfl

/-- Helper: the second import misses the promoted row — being the oldest it
falls outside the date-descending 100000-row window — and inserts it
again. -/
theorem c4_run2 : import_transactions (c4_store ++ [c4_promoted]) 1 [c4_row] =
    (c4_store ++ [c4_promoted] ++ [c4_promoted], ⟨1, 1, 0⟩) := by
  rw [import_transactions_eq, c4_window2]
  rw [show add_imported_ids [c4_row] = [(c4_row, c4_cid)] from rfl]
  rw [c4_fd]
  rfl

/-- C4, counterexample: the duplicate filter receives only the 100000 most
recent stored rows of the account (`get_transactions(..., limit=100_000)`
runs `ORDER BY t.date DESC, t.id DESC LIMIT 100000`), not the full set of
already-stored imported ids.  With 100000 stored rows dated 2024-05-01 and
a one-row file dated 2024-01-01 — no internal duplicates — the first import
inserts the row as number 100001; on re-import that row, the oldest by
date, falls outside the window, so the run reports zero duplicates, imports
the row again, and grows the store to 100002 rows — refuting the claimed
`duplicates = N, imported = 0` no-op. -/
theorem C4_second_import_reinserts :
    ([c4_row] : List NRow).Pairwise (fun a b => a ≠ b) ∧
    (import_transactions c4_store 1 [c4_row]).2 = ⟨1, 1, 0⟩ ∧
    (reimport c4_store 1 [c4_row]).2.duplicates = 0 ∧
    (reimport c4_store 1 [c4_row]).2.imported = 1 ∧
    (reimport c4_store 1 [c4_row]).1.length = 100002 := by
  have hre : reimport c4_store 1 [c4_row] =
      (c4_store ++ [c4_promoted] ++ [c4_promoted], ⟨1, 1, 0⟩) := by
    unfold reimport
    rw [c4_run1]
    exact c4_run2
  refine ⟨by simp, by rw [c4_run1], by rw [hre], by rw [hre], ?_⟩
  rw [hre]
  dsimp only
  rw [List.length_append, List.length_append, c4_store_len]
  rfl

/-- Witness for C6, amended, on the `db6` fixture: the category update of
the failing rule executes, the error is the `ValueError` on "abc", and the
batch stops before the second matching transaction. -/
theorem C6_transfer_parse_error_aborts_run_witness :
    apply_rule_actions db6_rule 1 =
      ([StoreCmd.updateCategory 1 "X"], some (PyErr.valueError "abc")) ∧
    apply_loop [db6_rule] (db6_t1 :: [db6_t2]) =
      ([StoreCmd.updateCategory 1 "X"], 0, some (PyErr.valueError "abc")) := by
  have h := C6_transfer_parse_error_aborts_run db6_rule 1 [⟨"set_category", "X"⟩]
    ⟨"mark_transfer", "abc"⟩ [] rfl rfl (by decide) (by decide)
  refine ⟨?_, ?_⟩
  · rw [h.1]; rfl
  · exact h.2 [db6_rule] db6_t1 [db6_t2] [StoreCmd.updateCategory 1 "X"] 0
      (PyErr.valueError "abc") rfl

end Sankash
